import Mathlib

/-!
# MindfulCampus: behavioural signal and intervention engine

A shallow embedding of the decision logic of the browser extension
(`browser-extension/content.js`) and of the dashboard analytics
(`src/services/aiService.js`).

Conventions of the embedding.

* JavaScript numbers are modelled as exact rationals (`ℚ`); the decimal
  literals `0.7`, `0.1`, `0.95`, ... are the rationals they denote and IEEE
  rounding is not modelled. Counters and lengths are natural numbers,
  millisecond timestamps are integers.
* JavaScript strings are Lean strings. Labels stay strings, as in the source.
* `triggerMicroIntervention(type, message)` is the only observable effect of
  an evaluation pass; a pass is modelled as the list of the interventions it
  triggers, in call order.
* `Date.now()` is a parameter `now` of each pass.
-/

namespace MindfulCampus

/-! ## Lexical sentiment scorer (`MindfulCampusMonitor.analyzeTextSentiment`) -/

/-- The object `{ label, confidence }` returned by the scorer. -/
structure SentimentResult where
  label : String
  confidence : ℚ
  deriving DecidableEq

/-- The field `this.emotionKeywords` set in the constructor. -/
structure EmotionKeywords where
  positive : List String
  negative : List String
  stress : List String

/-- The keyword lists of `content.js`, lines 15-19. -/
def emotionKeywords : EmotionKeywords where
  positive := ["happy", "excited", "grateful", "amazing", "wonderful", "love",
    "blessed", "fantastic", "awesome", "great"]
  negative := ["sad", "depressed", "anxious", "worried", "stressed", "hate",
    "terrible", "awful", "horrible", "devastated"]
  stress := ["overwhelmed", "pressure", "deadline", "exam", "finals", "study",
    "homework", "project", "assignment", "busy"]

/-- Lower-casing of one code point, as far as the split on `\W+` can see it.
`String.prototype.toLowerCase` maps `A`-`Z` to `a`-`z`, the Kelvin sign
U+212A to `k` and U+0130 to `i` followed by U+0307; every other code point is
mapped to code points outside `[A-Za-z0-9_]` (or to itself), which the
tokeniser treats as separators either way, so it is left unchanged here. -/
def lowerChar (c : Char) : List Char :=
  if c = Char.ofNat 0x212A then ['k']
  else if c = Char.ofNat 0x0130 then ['i', Char.ofNat 0x0307]
  else [c.toLower]

/-- Model of `text.toLowerCase()`. -/
def toLowerCase (text : String) : List Char :=
  text.toList.flatMap lowerChar

/-- The regular-expression class `\w`, that is `[A-Za-z0-9_]`. -/
def isWordChar (c : Char) : Bool :=
  c.isAlphanum || c == '_'

/-- Worker of `split(/\W+/)`: `cur` is the current piece (reversed) and
`inSep` tells whether the scan is inside a run of non-word characters. -/
def splitNonWordAux : List Char → Bool → List Char → List String
  | cur, _, [] => [String.mk cur.reverse]
  | cur, inSep, c :: cs =>
    if isWordChar c then splitNonWordAux (c :: cur) false cs
    else if inSep then splitNonWordAux [] true cs
    else String.mk cur.reverse :: splitNonWordAux [] true cs

/-- Model of `split(/\W+/)`: the pieces between the maximal runs of non-word
characters, with an empty piece in front when the text starts with a
separator and at the end when it ends with one (`"".split(/\W+/)` is `[""]`). -/
def splitNonWord (cs : List Char) : List String :=
  splitNonWordAux [] false cs

/-- The three counters `positiveScore`, `negativeScore`, `stressScore`. -/
structure Scores where
  positiveScore : Nat
  negativeScore : Nat
  stressScore : Nat
  deriving DecidableEq

/-- Body of the `words.forEach` callback: three independent `if`s. -/
def scoreWord (kw : EmotionKeywords) (acc : Scores) (word : String) : Scores :=
  let acc1 := if word ∈ kw.positive then { acc with positiveScore := acc.positiveScore + 1 } else acc
  let acc2 := if word ∈ kw.negative then { acc1 with negativeScore := acc1.negativeScore + 1 } else acc1
  if word ∈ kw.stress then { acc2 with stressScore := acc2.stressScore + 1 } else acc2

/-- The counters after the `forEach` loop over `words`. -/
def countScores (kw : EmotionKeywords) (words : List String) : Scores :=
  words.foldl (scoreWord kw) ⟨0, 0, 0⟩

/-- The label resolution of `analyzeTextSentiment` (lines 152-166), on the
final counters. -/
def resolveLabel (sc : Scores) : SentimentResult :=
  if sc.stressScore > 0 ∧ sc.stressScore ≥ sc.positiveScore then
    ⟨"stressed", min (7 / 10 + (sc.stressScore : ℚ) * (1 / 10)) (95 / 100)⟩
  else if sc.negativeScore > sc.positiveScore then
    ⟨"negative", min (6 / 10 + (sc.negativeScore : ℚ) * (1 / 10)) (95 / 100)⟩
  else if sc.positiveScore > sc.negativeScore then
    ⟨"positive", min (6 / 10 + (sc.positiveScore : ℚ) * (1 / 10)) (95 / 100)⟩
  else
    ⟨"neutral", 1 / 2⟩

/-- Model of `MindfulCampusMonitor.analyzeTextSentiment(text)`. -/
def analyzeTextSentiment (text : String) : SentimentResult :=
  let words := splitNonWord (toLowerCase text)
  resolveLabel (countScores emotionKeywords words)

/-- Specification side: the lower-cased tokens of a text. -/
def tokens (text : String) : List String :=
  splitNonWord (toLowerCase text)

/-- Number of words of a list that belong to a keyword list. -/
def memCount (kws : List String) (words : List String) : Nat :=
  (words.filter (fun w => decide (w ∈ kws))).length

/-- Specification side: how many tokens of the text are in a keyword list. -/
def keywordCount (kws : List String) (text : String) : Nat :=
  memCount kws (tokens text)

/-! ## Mood trend estimator (`predictMoodTrend`, `src/services/aiService.js`) -/

/-- An entry of the mood history, `{ mood, timestamp }` (the timestamp is an
ISO date string). -/
structure MoodEntry where
  mood : String
  timestamp : String := ""
  deriving DecidableEq

/-- The object returned by `generateTrendRecommendation`. -/
structure Recommendation where
  message : String
  priority : String
  actions : List String
  deriving DecidableEq

/-- The object returned by `predictMoodTrend`; the early return carries only
`trend` and `confidence`, so the other two fields are optional. -/
structure TrendResult where
  trend : String
  confidence : ℚ
  averageScore : Option ℚ
  recommendation : Option Recommendation
  deriving DecidableEq

/-- Model of `Array.prototype.slice(-k)`: the last `k` elements, or the whole
array when it has fewer. -/
def sliceLast {α : Type} (k : Nat) (l : List α) : List α :=
  l.drop (l.length - k)

/-- The `switch (entry.mood)` of `predictMoodTrend`, lines 185-191. -/
def moodScore (entry : MoodEntry) : ℚ :=
  if entry.mood = "positive" then 2
  else if entry.mood = "neutral" then 1
  else if entry.mood = "negative" then -1
  else if entry.mood = "stressed" then -2
  else 0

/-- Line 194: `moodScores.reduce((sum, score) => sum + score, 0) / moodScores.length`. -/
def averageScoreOf (moodScores : List ℚ) : ℚ :=
  moodScores.foldl (fun sum score => sum + score) 0 / (moodScores.length : ℚ)

/-- Line 195: the nested conditional that names the trend. -/
def trendOf (averageScore : ℚ) : String :=
  if averageScore > 1 / 2 then "improving"
  else if averageScore < -(1 / 2) then "declining"
  else "stable"

/-- Line 198: `reduce((sum, score) => sum + Math.pow(score - averageScore, 2), 0) / length`. -/
def varianceOf (moodScores : List ℚ) (averageScore : ℚ) : ℚ :=
  moodScores.foldl (fun sum score => sum + (score - averageScore) ^ 2) 0 /
    (moodScores.length : ℚ)

/-- Line 199: `Math.min(Math.abs(averageScore) + (1 / (1 + variance)), 0.95)`. -/
def confidenceOf (averageScore variance : ℚ) : ℚ :=
  min (|averageScore| + 1 / (1 + variance)) (95 / 100)

/-- Model of `generateTrendRecommendation(trend, score)`. -/
def generateTrendRecommendation (trend : String) (_score : ℚ) : Recommendation :=
  if trend = "declining" then
    { message := "Your mood has been trending downward. Consider reaching out to campus counseling services."
      priority := "high"
      actions := ["Schedule counseling appointment", "Connect with peer support",
        "Practice daily mindfulness"] }
  else if trend = "improving" then
    { message := "Great progress! Keep up the positive momentum with your current wellness practices."
      priority := "low"
      actions := ["Maintain current routine", "Share success with support network",
        "Set new wellness goals"] }
  else
    { message := "Your mood has been stable. Consider adding new wellness activities to boost your mental health."
      priority := "medium"
      actions := ["Try new stress management techniques", "Join a support group",
        "Increase physical activity"] }

/-- Model of `predictMoodTrend(moodHistory)`. -/
def predictMoodTrend (moodHistory : List MoodEntry) : TrendResult :=
  if moodHistory.length < 7 then
    { trend := "insufficient_data", confidence := 0, averageScore := none, recommendation := none }
  else
    let recentMoods := sliceLast 7 moodHistory
    let moodScores := recentMoods.map moodScore
    let averageScore := averageScoreOf moodScores
    let trend := trendOf averageScore
    let variance := varianceOf moodScores averageScore
    let confidence := confidenceOf averageScore variance
    { trend := trend, confidence := confidence, averageScore := some averageScore,
      recommendation := some (generateTrendRecommendation trend averageScore) }

/-- Specification side: the arithmetic mean of a list of numbers. -/
def mean (xs : List ℚ) : ℚ :=
  xs.sum / (xs.length : ℚ)

/-- Specification side: the last seven samples of a history. -/
def lastSeven (history : List MoodEntry) : List MoodEntry :=
  ((history.reverse).take 7).reverse

/-- Specification side: population variance of seven numbers, the sum of the
squared deviations from their mean divided by 7. -/
def populationVariance (xs : List ℚ) : ℚ :=
  (xs.map (fun x => (x - mean xs) ^ 2)).sum / 7

/-! ## Interaction signal aggregator and decision engine (`content.js`) -/

/-- A scroll sample `{ timestamp, scrollY, scrollSpeed }`. -/
structure ScrollSample where
  timestamp : ℤ
  scrollY : ℚ
  scrollSpeed : ℚ
  deriving DecidableEq

/-- A click sample `{ timestamp, element, className, text }`. -/
structure ClickSample where
  timestamp : ℤ
  element : String := ""
  className : String := ""
  text : Option String := none
  deriving DecidableEq

/-- A text sample `{ timestamp, length, sentiment, platform }`. -/
structure TextSample where
  timestamp : ℤ
  length : Nat
  sentiment : SentimentResult
  platform : String
  deriving DecidableEq

/-- The field `this.sessionData` of the monitor. -/
structure SessionData where
  startTime : ℤ
  scrollEvents : List ScrollSample := []
  clickEvents : List ClickSample := []
  textInteractions : List TextSample := []
  timeSpent : ℤ := 0
  deriving DecidableEq

/-- The arguments of one call `triggerMicroIntervention(type, message)`. -/
structure Intervention where
  type : String
  message : String
  deriving DecidableEq

/-- Model of `calculateScrollSpeed()`: it reads the two most recent samples
of the buffer it is given. -/
def calculateScrollSpeed (events : List ScrollSample) : ℚ :=
  match events.reverse with
  | last :: previous :: _ =>
    let timeDiff := last.timestamp - previous.timestamp
    let scrollDiff := |last.scrollY - previous.scrollY|
    if timeDiff > 0 then scrollDiff / (timeDiff : ℚ) else 0
  | _ => 0

/-- The scroll listener of `setupEventListeners` (lines 52-58). The argument
of `push` is evaluated before the push itself, so `calculateScrollSpeed()`
runs on the buffer that does not yet hold the new sample. -/
def scrollListener (s : SessionData) (now : ℤ) (scrollY : ℚ) : SessionData :=
  { s with
    scrollEvents := s.scrollEvents ++
      [{ timestamp := now, scrollY := scrollY,
         scrollSpeed := calculateScrollSpeed s.scrollEvents }] }

/-- A session after a sequence of scroll events `(now, scrollY)`. -/
def runScrolls (s : SessionData) (events : List (ℤ × ℚ)) : SessionData :=
  events.foldl (fun st e => scrollListener st e.1 e.2) s

/-- The expression `x || 0` on a number. -/
def orZero (x : ℚ) : ℚ :=
  if x = 0 then 0 else x

/-- The call `triggerMicroIntervention('breathing', ...)` of `analyzeScrollPattern`. -/
def breathingIntervention : Intervention :=
  ⟨"breathing", "Take a moment to breathe deeply"⟩

/-- Model of `analyzeScrollPattern()`: the interventions it triggers. The sum
and the quotient are exact here, while `content.js` adds and divides IEEE
doubles (and the stored speeds are rounded quotients), so on a window whose
average is 3 up to the last place the test `avgSpeed > 3` can come out
differently in the source. The theorems on this pass use the length guard,
the window, and windows whose average is well away from 3. -/
def analyzeScrollPattern (s : SessionData) : List Intervention :=
  let events := sliceLast 10 s.scrollEvents
  if events.length < 5 then []
  else
    let avgSpeed := events.foldl (fun sum e => sum + orZero e.scrollSpeed) 0 /
      (events.length : ℚ)
    let rapidScrolling := (events.filter (fun e => decide (orZero e.scrollSpeed > 5))).length
    if rapidScrolling > 3 ∧ avgSpeed > 3 then [breathingIntervention] else []

/-- The call `triggerMicroIntervention('awareness', ...)` of `checkBrowsingPatterns`. -/
def awarenessIntervention : Intervention :=
  ⟨"awareness", "You've been scrolling quite a bit. How are you feeling right now?"⟩

/-- The call `triggerMicroIntervention('slow-down', ...)` of `checkBrowsingPatterns`. -/
def slowDownIntervention : Intervention :=
  ⟨"slow-down", "Take a moment to slow down and breathe deeply."⟩

/-- Model of `checkBrowsingPatterns()`: two independent `if` statements, each
of which may trigger an intervention. -/
def checkBrowsingPatterns (s : SessionData) (now : ℤ) : List Intervention :=
  let timeSpent := now - s.startTime
  let scrollEvents := s.scrollEvents.length
  let fromScrolling :=
    if scrollEvents > 100 ∧ timeSpent < 600000 then [awarenessIntervention] else []
  let recentClicks := s.clickEvents.filter (fun click => decide (now - click.timestamp < 60000))
  let fromClicking :=
    if recentClicks.length > 20 then [slowDownIntervention] else []
  fromScrolling ++ fromClicking

/-- Specification side: the window of `analyzeScrollPattern`, the last
`min 10 length` samples of the buffer. -/
def scrollWindow (buffer : List ScrollSample) : List ScrollSample :=
  (buffer.reverse.take (min 10 buffer.length)).reverse

/-- Specification side: how many samples of a window have speed above 5. -/
def rapidCount (window : List ScrollSample) : Nat :=
  window.countP (fun e => decide (e.scrollSpeed > 5))

/-- Specification side: mean speed of a window. -/
def meanSpeed (window : List ScrollSample) : ℚ :=
  mean (window.map (fun e => e.scrollSpeed))

/-- Specification side: how many clicks are less than 60000 ms old at `now`. -/
def recentClickCount (clicks : List ClickSample) (now : ℤ) : Nat :=
  clicks.countP (fun c => decide (now - c.timestamp < 60000))

/-- A click buffer of `k` clicks, all with the given timestamp. -/
def clicksAt (k : Nat) (timestamp : ℤ) : List ClickSample :=
  List.replicate k { timestamp := timestamp }

/-! ## Session duration, exposure and text passes (`content.js`) -/

/-- The first `triggerMicroIntervention` call of `checkSessionDuration`. -/
def longBreakIntervention : Intervention :=
  ⟨"break", "You've been browsing for over 2 hours. Consider taking a break and going for a walk."⟩

/-- The second `triggerMicroIntervention` call of `checkSessionDuration`. -/
def checkInIntervention : Intervention :=
  ⟨"check-in", "You've been online for an hour. How are you feeling? Remember to stay hydrated!"⟩

/-- Model of `checkSessionDuration()`: an `if` / `else if` on the hours spent. -/
def checkSessionDuration (s : SessionData) (now : ℤ) : List Intervention :=
  let timeSpent := now - s.startTime
  let hoursSpent := (timeSpent : ℚ) / (1000 * 60 * 60)
  if hoursSpent > 2 then [longBreakIntervention]
  else if hoursSpent > 1 then [checkInIntervention]
  else []

/-- An entry `{ timestamp, platform, url }` of the stored `negativeExposure` list. -/
structure Exposure where
  timestamp : ℤ
  platform : String := ""
  url : String := ""
  deriving DecidableEq

/-- The `triggerMicroIntervention` call of `checkExposureIntervention`. -/
def exposureBreakIntervention : Intervention :=
  ⟨"break", "You've encountered several concerning posts. Consider taking a social media break."⟩

/-- Model of `checkExposureIntervention(exposures)`. -/
def checkExposureIntervention (exposures : List Exposure) (now : ℤ) : List Intervention :=
  let recentExposures := exposures.filter
    (fun e => decide (now - e.timestamp < 30 * 60 * 1000))
  if recentExposures.length > 5 then [exposureBreakIntervention] else []

/-- Model of the storage callback of `trackNegativeContentExposure()` (lines
276-296). `stored` is `result.negativeExposure` (absent on first use), `now`
the `Date.now()` of the new exposure and `nowCheck` the clock when the
callback runs the check. The result is the list written back with
`chrome.storage.local.set` and the interventions of the check. -/
def trackNegativeContentExposure (stored : Option (List Exposure)) (now : ℤ)
    (platform url : String) (nowCheck : ℤ) : List Exposure × List Intervention :=
  let exposure : Exposure := { timestamp := now, platform := platform, url := url }
  let pushed := stored.getD [] ++ [exposure]
  let exposures := if pushed.length > 100 then pushed.drop (pushed.length - 100) else pushed
  (exposures, checkExposureIntervention exposures nowCheck)

/-- The `length` of a JavaScript string: its number of UTF-16 code units,
two for a code point outside the basic plane. -/
def jsLength (text : String) : Nat :=
  (text.toList.map (fun c => if c.toNat < 0x10000 then 1 else 2)).sum

/-- The target of an `input` event, as far as `analyzeTextInput` reads it:
`event.target.value` and `event.target.textContent`, either of which may be
absent. -/
structure InputTarget where
  value : Option String := none
  textContent : Option String := none
  deriving DecidableEq

/-- The expression `event.target.value || event.target.textContent`: the value
unless it is absent or the empty string. -/
def eventText (target : InputTarget) : Option String :=
  match target.value with
  | some v => if v = "" then target.textContent else some v
  | none => target.textContent

/-- The array `suggestions` of `suggestPositiveAlternative`. -/
def reframeSuggestions : List String :=
  ["Consider reframing this thought more positively",
   "What's one good thing that happened today?",
   "How might you encourage a friend in this situation?",
   "What would you tell someone you care about facing this?",
   "Can you find a silver lining in this experience?"]

/-- Model of `suggestPositiveAlternative(originalText)`; `random` is the value
of `Math.random()`, a number in `[0, 1)`. -/
def suggestPositiveAlternative (_originalText : String) (random : ℚ) : List Intervention :=
  let randomSuggestion :=
    reframeSuggestions.getD (⌊random * (reframeSuggestions.length : ℚ)⌋).toNat "undefined"
  [⟨"reframe", randomSuggestion⟩]

/-- Model of `analyzeTextInput(event)`: the session after the call and the
interventions triggered. `platform` is the value of `this.detectPlatform()`;
the request of `sendTextForAnalysis` touches neither the session nor the
interventions and is left out. -/
def analyzeTextInput (s : SessionData) (now : ℤ) (platform : String) (random : ℚ)
    (target : InputTarget) : SessionData × List Intervention :=
  match eventText target with
  | none => (s, [])
  | some text =>
    if text = "" ∨ jsLength text < 10 then (s, [])
    else
      let sentiment := analyzeTextSentiment text
      let s1 := { s with
        textInteractions := s.textInteractions ++
          [{ timestamp := now, length := jsLength text, sentiment := sentiment,
             platform := platform }] }
      if sentiment.label = "negative" ∧ sentiment.confidence > 7 / 10 then
        (s1, suggestPositiveAlternative text random)
      else (s1, [])

/-- The types of the interventions a pass has triggered, in order. -/
def emittedTypes (out : List Intervention) : List String :=
  out.map (fun i => i.type)

/-- Specification side: how many exposures are less than 30 minutes
(1800000 ms) old at `now`. -/
def recentExposureCount (exposures : List Exposure) (now : ℤ) : Nat :=
  exposures.countP (fun e => decide (now - e.timestamp < 1800000))

/-- Specification side: the last `k` elements of a list. -/
def lastN {α : Type} (k : Nat) (l : List α) : List α :=
  (l.reverse.take k).reverse

/-- A list of `k` exposures, all with the given timestamp. -/
def exposuresAt (k : Nat) (timestamp : ℤ) : List Exposure :=
  List.replicate k { timestamp := timestamp }

/-- The scroll events `(10 i, 50 i)` for `i` below `k`: one every 10 ms. -/
def steadyScrolls (k : Nat) : List (ℤ × ℚ) :=
  (List.range k).map (fun (i : Nat) => ((i : ℤ) * 10, (i : ℚ) * 50))

/-- A session started at time 0 with 101 scroll events in its first second
and 21 clicks at time 1500. -/
def busySession : SessionData :=
  { runScrolls { startTime := 0 } (steadyScrolls 101) with clickEvents := clicksAt 21 1500 }

/-! ## Mood history of the dashboard (`emotionReducer`, `src/context/EmotionContext.js`) -/

/-- The reducer state. Payload objects the reducer only stores (interventions,
social activities, insights) are kept as strings. -/
structure EmotionState where
  currentMood : String
  moodHistory : List MoodEntry
  interventions : List String
  wellnessStreak : ℚ
  socialMediaActivity : List String
  isAnalyzing : Bool
  insights : String
  deriving DecidableEq

/-- The constant `initialState`. -/
def initialState : EmotionState :=
  { currentMood := "neutral", moodHistory := [], interventions := [], wellnessStreak := 0,
    socialMediaActivity := [], isAnalyzing := false, insights := "" }

/-- The payload of `LOAD_STATE`: a saved state, any field of which may be
missing. -/
structure SavedState where
  currentMood : Option String := none
  moodHistory : Option (List MoodEntry) := none
  interventions : Option (List String) := none
  wellnessStreak : Option ℚ := none
  socialMediaActivity : Option (List String) := none
  isAnalyzing : Option Bool := none
  insights : Option String := none

/-- The actions of `emotionReducer`, one constructor per `case`; `other` is
any action type the `switch` does not name. -/
inductive EmotionAction where
  | setCurrentMood (payload : String)
  | addIntervention (payload : String)
  | updateWellnessStreak (payload : ℚ)
  | addSocialActivity (payload : String)
  | setAnalyzing (payload : Bool)
  | updateInsights (payload : String)
  | loadState (payload : SavedState)
  | other

/-- Model of `emotionReducer(state, action)`; `isoNow` is the value of
`new Date().toISOString()`. -/
def emotionReducer (state : EmotionState) (action : EmotionAction) (isoNow : String) :
    EmotionState :=
  match action with
  | .setCurrentMood payload =>
    { state with
      currentMood := payload
      moodHistory := sliceLast 50 (state.moodHistory ++ [{ mood := payload, timestamp := isoNow }]) }
  | .addIntervention payload =>
    { state with interventions := (payload :: state.interventions).take 20 }
  | .updateWellnessStreak payload => { state with wellnessStreak := payload }
  | .addSocialActivity payload =>
    { state with socialMediaActivity := (payload :: state.socialMediaActivity).take 100 }
  | .setAnalyzing payload => { state with isAnalyzing := payload }
  | .updateInsights payload => { state with insights := payload }
  | .loadState payload =>
    { currentMood := payload.currentMood.getD state.currentMood
      moodHistory := payload.moodHistory.getD state.moodHistory
      interventions := payload.interventions.getD state.interventions
      wellnessStreak := payload.wellnessStreak.getD state.wellnessStreak
      socialMediaActivity := payload.socialMediaActivity.getD state.socialMediaActivity
      isAnalyzing := payload.isAnalyzing.getD state.isAnalyzing
      insights := payload.insights.getD state.insights }
  | .other => state

/-- The state after a sequence of `SET_CURRENT_MOOD` actions, each given as
the mood and the date string of its dispatch. -/
def setMoods (state : EmotionState) (moods : List (String × String)) : EmotionState :=
  moods.foldl (fun st m => emotionReducer st (.setCurrentMood m.1) m.2) state

/-! ## Feed scanning, repeated passes and the dashboard scorer -/

/-- Two consecutive runs of a pass on the same session at the same clock
value. None of `checkBrowsingPatterns`, `checkSessionDuration`,
`analyzeScrollPattern` and `checkExposureIntervention` assigns to the session
or to any other field of the monitor, and `triggerMicroIntervention` only
adds an element to the page, so the second run starts from the state of the
first. -/
def evaluateTwice (pass : SessionData → ℤ → List Intervention) (s : SessionData) (now : ℤ) :
    List Intervention × List Intervention :=
  let first := pass s now
  let second := pass s now
  (first, second)

/-- The array `triggerWords` of `analyzeNewContent`. -/
def triggerWords : List String :=
  ["suicide", "depression", "anxiety", "panic", "overwhelmed",
   "hopeless", "worthless", "alone", "isolated", "stressed"]

/-- The expression `element.textContent?.toLowerCase() || ''` of
`analyzeNewContent`. -/
def feedText (textContent : Option String) : String :=
  match textContent with
  | some t => String.mk (toLowerCase t)
  | none => ""

/-- What `analyzeNewContent(element)` does: whether it calls
`showContentWarning` and whether it calls `trackNegativeContentExposure`. -/
structure NewContentResult where
  warning : Bool
  exposure : Bool
  deriving DecidableEq

/-- Model of `analyzeNewContent(element)`, on the text content of the element. -/
def analyzeNewContent (textContent : Option String) : NewContentResult :=
  let text := feedText textContent
  let hasTriggerContent := triggerWords.any (fun word => decide (word.toList <:+: text.toList))
  let sentiment := analyzeTextSentiment text
  { warning := hasTriggerContent
    exposure := decide (sentiment.label = "negative" ∧ sentiment.confidence > 6 / 10) }

/-- The word lists of `sentimentModel.predict` (`aiService.js`, lines 19-21). -/
def dashboardKeywords : EmotionKeywords where
  positive := ["good", "great", "happy", "love", "awesome", "amazing", "excellent",
    "wonderful", "fantastic", "perfect", "best", "better", "beautiful", "brilliant",
    "cheerful", "delighted", "excited", "grateful", "hopeful", "inspired", "joyful",
    "optimistic", "pleased", "satisfied", "thrilled"]
  negative := ["bad", "sad", "hate", "terrible", "awful", "horrible", "worst", "angry",
    "depressed", "anxious", "stressed", "worried", "frustrated", "disappointed", "upset",
    "miserable", "devastated", "heartbroken", "lonely", "overwhelmed", "exhausted",
    "hopeless", "discouraged", "bitter", "resentful"]
  stress := ["exam", "test", "deadline", "assignment", "project", "study", "finals",
    "midterm", "homework", "workload", "pressure", "busy", "overwhelmed", "stressed",
    "tired", "exhausted", "rush", "panic", "behind", "late"]

/-- Worker of `split(' ')`: `cur` is the current piece, reversed. -/
def splitSpaceAux : List Char → List Char → List String
  | cur, [] => [String.mk cur.reverse]
  | cur, c :: cs =>
    if c = ' ' then String.mk cur.reverse :: splitSpaceAux [] cs
    else splitSpaceAux (c :: cur) cs

/-- Model of `split(' ')`: the pieces between single spaces, empty pieces
included. -/
def splitSpace (cs : List Char) : List String :=
  splitSpaceAux [] cs

/-- The decision of `sentimentModel.predict` (`aiService.js`, lines 35-43),
on the final counters. -/
def predictResolve (sc : Scores) : SentimentResult :=
  if sc.stressScore > 0 ∧ sc.stressScore ≥ sc.positiveScore then
    ⟨"Stressed", min (7 / 10 + (sc.stressScore : ℚ) * (1 / 10)) (95 / 100)⟩
  else if sc.negativeScore > sc.positiveScore then
    ⟨"Negative", min (6 / 10 + (sc.negativeScore : ℚ) * (1 / 10)) (95 / 100)⟩
  else if sc.positiveScore > sc.negativeScore then
    ⟨"Positive", min (6 / 10 + (sc.positiveScore : ℚ) * (1 / 10)) (95 / 100)⟩
  else
    ⟨"Neutral", 1 / 2⟩

/-- Model of `sentimentModel.predict(text)`. A word with a character outside
ASCII is in no word list whatever its lower case, so `toLowerCase` serves
here as well. -/
def sentimentModelPredict (text : String) : SentimentResult :=
  let words := splitSpace (toLowerCase text)
  predictResolve (countScores dashboardKeywords words)

/-- Specification side: the number of keywords of the label's own list in a
text, none for the neutral label. -/
def dominantCount (text : String) : Nat :=
  if (analyzeTextSentiment text).label = "stressed" then keywordCount emotionKeywords.stress text
  else if (analyzeTextSentiment text).label = "negative" then
    keywordCount emotionKeywords.negative text
  else if (analyzeTextSentiment text).label = "positive" then
    keywordCount emotionKeywords.positive text
  else 0

/-- Specification side: the first letter of a label in upper case. -/
def capitalise (label : String) : String :=
  match label.toList with
  | [] => ""
  | c :: cs => String.mk (c.toUpper :: cs)

/-- A buffer of seven samples, four of speed 5.1 followed by three of speed 0. -/
def sparseRapidBuffer : List ScrollSample :=
  List.replicate 4 ⟨0, 0, 51 / 10⟩ ++ List.replicate 3 ⟨0, 0, 0⟩

/-! ## Lemmas on the scorer -/

theorem memCount_nil (kws : List String) : memCount kws [] = 0 := rfl

theorem memCount_cons (kws : List String) (w : String) (ws : List String) :
    memCount kws (w :: ws) = (if w ∈ kws then 1 else 0) + memCount kws ws := by
  unfold memCount
  by_cases h : w ∈ kws
  · simp [List.filter_cons, h, Nat.add_comm]
  · simp [List.filter_cons, h]

/-- The loop invariant of the `forEach`: each counter grows by the number of
words found in its list. -/
theorem foldl_scoreWord (kw : EmotionKeywords) (words : List String) (acc : Scores) :
    words.foldl (scoreWord kw) acc =
      ⟨acc.positiveScore + memCount kw.positive words,
       acc.negativeScore + memCount kw.negative words,
       acc.stressScore + memCount kw.stress words⟩ := by
  induction words generalizing acc with
  | nil => simp [memCount_nil]
  | cons w ws ih =>
    rw [List.foldl_cons, ih, memCount_cons, memCount_cons, memCount_cons]
    unfold scoreWord
    by_cases hp : w ∈ kw.positive <;> by_cases hn : w ∈ kw.negative <;>
      by_cases hs : w ∈ kw.stress <;> simp [hp, hn, hs] <;> omega

theorem countScores_eq (kw : EmotionKeywords) (words : List String) :
    countScores kw words =
      ⟨memCount kw.positive words, memCount kw.negative words, memCount kw.stress words⟩ := by
  unfold countScores
  rw [foldl_scoreWord]
  simp

theorem analyzeTextSentiment_eq (text : String) :
    analyzeTextSentiment text =
      resolveLabel ⟨keywordCount emotionKeywords.positive text,
        keywordCount emotionKeywords.negative text,
        keywordCount emotionKeywords.stress text⟩ := by
  show resolveLabel (countScores emotionKeywords (splitNonWord (toLowerCase text))) = _
  rw [countScores_eq]
  rfl

theorem resolveLabel_confidence_bounds (sc : Scores) :
    1 / 2 ≤ (resolveLabel sc).confidence ∧ (resolveLabel sc).confidence ≤ 95 / 100 := by
  have hs : (0 : ℚ) ≤ sc.stressScore := Nat.cast_nonneg _
  have hn : (0 : ℚ) ≤ sc.negativeScore := Nat.cast_nonneg _
  have hp : (0 : ℚ) ≤ sc.positiveScore := Nat.cast_nonneg _
  unfold resolveLabel
  split_ifs
  · exact ⟨le_min (by linarith) (by norm_num), min_le_right _ _⟩
  · exact ⟨le_min (by linarith) (by norm_num), min_le_right _ _⟩
  · exact ⟨le_min (by linarith) (by norm_num), min_le_right _ _⟩
  · constructor <;> norm_num

theorem resolveLabel_label_mem (sc : Scores) :
    (resolveLabel sc).label ∈ ["positive", "negative", "neutral", "stressed"] := by
  unfold resolveLabel
  split_ifs <;> simp

/-! ## Lemmas on the trend estimator -/

theorem sliceLast_seven_eq (history : List MoodEntry) :
    sliceLast 7 history = lastSeven history := by
  unfold sliceLast lastSeven
  rw [List.take_reverse, List.reverse_reverse]

theorem length_lastSeven (history : List MoodEntry) (hlen : 7 ≤ history.length) :
    (lastSeven history).length = 7 := by
  rw [← sliceLast_seven_eq]
  unfold sliceLast
  rw [List.length_drop]
  omega

theorem lastSeven_of_length (history : List MoodEntry) (hlen : history.length = 7) :
    lastSeven history = history := by
  rw [← sliceLast_seven_eq]
  unfold sliceLast
  simp [hlen]

theorem foldl_add_eq_sum {α : Type} (f : α → ℚ) (xs : List α) (a : ℚ) :
    xs.foldl (fun sum score => sum + f score) a = a + (xs.map f).sum := by
  induction xs generalizing a with
  | nil => simp
  | cons x xs ih => simp [ih, add_assoc]

theorem averageScoreOf_eq_mean (xs : List ℚ) : averageScoreOf xs = mean xs := by
  unfold averageScoreOf mean
  have h := foldl_add_eq_sum (fun x => x) xs 0
  simp only [List.map_id_fun, id_eq, zero_add] at h
  simp only [h, List.map_id_fun', id_eq]

theorem varianceOf_eq (xs : List ℚ) (hlen : xs.length = 7) :
    varianceOf xs (averageScoreOf xs) = populationVariance xs := by
  unfold varianceOf populationVariance
  rw [foldl_add_eq_sum (fun x => (x - averageScoreOf xs) ^ 2), averageScoreOf_eq_mean, hlen]
  simp

/-- The result of `predictMoodTrend` on a history of seven samples or more,
in terms of the scores of the last seven. -/
theorem predictMoodTrend_of_length (history : List MoodEntry) (hlen : 7 ≤ history.length) :
    predictMoodTrend history =
      { trend := trendOf (averageScoreOf ((lastSeven history).map moodScore))
        confidence := confidenceOf (averageScoreOf ((lastSeven history).map moodScore))
          (varianceOf ((lastSeven history).map moodScore)
            (averageScoreOf ((lastSeven history).map moodScore)))
        averageScore := some (averageScoreOf ((lastSeven history).map moodScore))
        recommendation := some (generateTrendRecommendation
          (trendOf (averageScoreOf ((lastSeven history).map moodScore)))
          (averageScoreOf ((lastSeven history).map moodScore))) } := by
  unfold predictMoodTrend
  rw [if_neg (by omega), sliceLast_seven_eq]

theorem moodScore_positive (t : String) : moodScore ⟨"positive", t⟩ = 2 := by
  unfold moodScore
  rw [if_pos rfl]

theorem moodScore_neutral (t : String) : moodScore ⟨"neutral", t⟩ = 1 := by
  unfold moodScore
  dsimp only
  rw [if_neg (by decide), if_pos rfl]

theorem moodScore_negative (t : String) : moodScore ⟨"negative", t⟩ = -1 := by
  unfold moodScore
  dsimp only
  rw [if_neg (by decide), if_neg (by decide), if_pos rfl]

theorem moodScore_stressed (t : String) : moodScore ⟨"stressed", t⟩ = -2 := by
  unfold moodScore
  dsimp only
  rw [if_neg (by decide), if_neg (by decide), if_neg (by decide), if_pos rfl]

theorem moodScore_other (m t : String)
    (h : m ∉ ["positive", "neutral", "negative", "stressed"]) : moodScore ⟨m, t⟩ = 0 := by
  simp only [List.mem_cons, List.mem_singleton, List.mem_nil_iff, or_false, not_or] at h
  unfold moodScore
  rw [if_neg h.1, if_neg h.2.1, if_neg h.2.2.1, if_neg h.2.2.2]

theorem sum_map_const {α : Type} (f : α → ℚ) (c : ℚ) (l : List α)
    (h : ∀ e ∈ l, f e = c) : (l.map f).sum = (l.map f).length * c := by
  induction l with
  | nil => simp
  | cons x xs ih =>
    have hx : f x = c := h x (List.mem_cons_self x xs)
    have hxs : ∀ e ∈ xs, f e = c := fun e he => h e (List.mem_cons_of_mem x he)
    simp only [List.map_cons, List.sum_cons, List.length_cons, ih hxs, hx]
    push_cast
    ring

theorem trendOf_mem (a : ℚ) : trendOf a ∈ ["improving", "declining", "stable"] := by
  unfold trendOf
  split_ifs <;> simp

theorem trendOf_eq_declining (a : ℚ) : trendOf a = "declining" ↔ a < -(1 / 2) := by
  unfold trendOf
  by_cases h1 : a > 1 / 2
  · rw [if_pos h1]
    exact ⟨fun h => absurd h (by decide), fun h => by linarith⟩
  · rw [if_neg h1]
    by_cases h2 : a < -(1 / 2)
    · rw [if_pos h2]
      exact ⟨fun _ => h2, fun _ => rfl⟩
    · rw [if_neg h2]
      exact ⟨fun h => absurd h (by decide), fun h => absurd h h2⟩

theorem trendOf_eq_improving (a : ℚ) : trendOf a = "improving" ↔ 1 / 2 < a := by
  unfold trendOf
  by_cases h1 : a > 1 / 2
  · rw [if_pos h1]
    exact ⟨fun _ => h1, fun _ => rfl⟩
  · rw [if_neg h1]
    by_cases h2 : a < -(1 / 2)
    · rw [if_pos h2]
      exact ⟨fun h => absurd h (by decide), fun h => absurd h h1⟩
    · rw [if_neg h2]
      exact ⟨fun h => absurd h (by decide), fun h => absurd h h1⟩

theorem priority_high_iff (t : String) (a : ℚ) :
    (generateTrendRecommendation t a).priority = "high" ↔ t = "declining" := by
  unfold generateTrendRecommendation
  by_cases h1 : t = "declining"
  · rw [if_pos h1]
    exact ⟨fun _ => h1, fun _ => rfl⟩
  · rw [if_neg h1]
    by_cases h2 : t = "improving"
    · rw [if_pos h2]
      exact ⟨fun h => absurd h (by decide), fun h => absurd h h1⟩
    · rw [if_neg h2]
      exact ⟨fun h => absurd h (by decide), fun h => absurd h h1⟩

theorem priority_low_iff (t : String) (a : ℚ) :
    (generateTrendRecommendation t a).priority = "low" ↔ t = "improving" := by
  unfold generateTrendRecommendation
  by_cases h1 : t = "declining"
  · rw [if_pos h1]
    exact ⟨fun h => absurd h (by decide), fun h => absurd (h1.symm.trans h) (by decide)⟩
  · rw [if_neg h1]
    by_cases h2 : t = "improving"
    · rw [if_pos h2]
      exact ⟨fun _ => h2, fun _ => rfl⟩
    · rw [if_neg h2]
      exact ⟨fun h => absurd h (by decide), fun h => absurd h h2⟩

theorem priority_medium_iff (t : String) (a : ℚ)
    (ht : t ∈ ["improving", "declining", "stable"]) :
    (generateTrendRecommendation t a).priority = "medium" ↔ t = "stable" := by
  unfold generateTrendRecommendation
  by_cases h1 : t = "declining"
  · rw [if_pos h1]
    exact ⟨fun h => absurd h (by decide), fun h => absurd (h1.symm.trans h) (by decide)⟩
  · rw [if_neg h1]
    by_cases h2 : t = "improving"
    · rw [if_pos h2]
      exact ⟨fun h => absurd h (by decide), fun h => absurd (h2.symm.trans h) (by decide)⟩
    · rw [if_neg h2]
      simp only [List.mem_cons, List.mem_singleton, List.mem_nil_iff, or_false] at ht
      rcases ht with h | h | h
      · exact absurd h h2
      · exact absurd h h1
      · exact ⟨fun _ => h, fun _ => rfl⟩

theorem actions_length (t : String) (a : ℚ) :
    (generateTrendRecommendation t a).actions.length = 3 := by
  unfold generateTrendRecommendation
  split_ifs <;> rfl

/-! ## Lemmas on the aggregator -/

theorem orZero_eq (x : ℚ) : orZero x = x := by
  unfold orZero
  split_ifs with h
  · exact h.symm
  · rfl

theorem sliceLast_ten_eq (buffer : List ScrollSample) :
    sliceLast 10 buffer = scrollWindow buffer := by
  unfold sliceLast scrollWindow
  rw [List.take_reverse, List.reverse_reverse]
  congr 1
  omega

theorem sliceLast_append {α : Type} (k : Nat) (older l : List α) (h : k ≤ l.length) :
    sliceLast k (older ++ l) = sliceLast k l := by
  unfold sliceLast
  rw [List.drop_append_eq_append_drop, List.drop_eq_nil_of_le (by rw [List.length_append]; omega),
    List.nil_append]
  congr 1
  rw [List.length_append]
  omega

/-- The result of `analyzeScrollPattern` in terms of the window. -/
theorem analyzeScrollPattern_eq (s : SessionData) :
    analyzeScrollPattern s =
      if 5 ≤ s.scrollEvents.length ∧ 3 < rapidCount (scrollWindow s.scrollEvents) ∧
          3 < meanSpeed (scrollWindow s.scrollEvents) then [breathingIntervention]
      else [] := by
  have hlen : (scrollWindow s.scrollEvents).length = min 10 s.scrollEvents.length := by
    unfold scrollWindow
    rw [List.length_reverse, List.length_take, List.length_reverse]
    omega
  have hsum : (scrollWindow s.scrollEvents).foldl (fun sum e => sum + orZero e.scrollSpeed) 0 /
      ((scrollWindow s.scrollEvents).length : ℚ) = meanSpeed (scrollWindow s.scrollEvents) := by
    unfold meanSpeed mean
    rw [foldl_add_eq_sum (fun e : ScrollSample => orZero e.scrollSpeed), zero_add, List.length_map]
    simp only [orZero_eq]
  have hcount : ((scrollWindow s.scrollEvents).filter
      (fun e => decide (orZero e.scrollSpeed > 5))).length =
      rapidCount (scrollWindow s.scrollEvents) := by
    unfold rapidCount
    rw [List.countP_eq_length_filter]
    simp only [orZero_eq]
  unfold analyzeScrollPattern
  simp only [sliceLast_ten_eq, hsum, hcount]
  by_cases h5 : 5 ≤ s.scrollEvents.length
  · rw [if_neg (by rw [hlen]; omega)]
    simp only [h5, true_and, gt_iff_lt]
  · rw [if_pos (by rw [hlen]; omega)]
    simp only [h5, false_and, if_false]

theorem slowDown_ne_awareness : slowDownIntervention ≠ awarenessIntervention := by
  decide

/-- The slow-down intervention is triggered exactly by the second `if` of
`checkBrowsingPatterns`. -/
theorem slowDown_mem_iff (s : SessionData) (now : ℤ) :
    slowDownIntervention ∈ checkBrowsingPatterns s now ↔
      20 < recentClickCount s.clickEvents now := by
  unfold checkBrowsingPatterns recentClickCount
  rw [List.countP_eq_length_filter]
  simp only [List.mem_append]
  constructor
  · rintro (h | h)
    · split_ifs at h
      · rw [List.mem_singleton] at h
        exact absurd h slowDown_ne_awareness
      · exact absurd h (List.not_mem_nil _)
    · split_ifs at h with hc
      · exact hc
      · exact absurd h (List.not_mem_nil _)
  · intro h
    right
    rw [if_pos h]
    exact List.mem_singleton_self _

/-! ## Lemmas on the passes of the decision engine -/

theorem awareness_ne_slowDown : awarenessIntervention ≠ slowDownIntervention := by
  decide

/-- The two `if` statements of `checkBrowsingPatterns`, on the signals. -/
theorem checkBrowsingPatterns_eq (s : SessionData) (now : ℤ) :
    checkBrowsingPatterns s now =
      (if 100 < s.scrollEvents.length ∧ now - s.startTime < 600000 then [awarenessIntervention]
        else []) ++
      (if 20 < recentClickCount s.clickEvents now then [slowDownIntervention] else []) := by
  unfold checkBrowsingPatterns recentClickCount
  rw [List.countP_eq_length_filter]

/-- The awareness intervention is triggered exactly by the first `if` of
`checkBrowsingPatterns`. -/
theorem awareness_mem_iff (s : SessionData) (now : ℤ) :
    awarenessIntervention ∈ checkBrowsingPatterns s now ↔
      100 < s.scrollEvents.length ∧ now - s.startTime < 600000 := by
  rw [checkBrowsingPatterns_eq]
  by_cases h1 : 100 < s.scrollEvents.length ∧ now - s.startTime < 600000
  · rw [if_pos h1]
    exact iff_of_true (List.mem_append_left _ (List.mem_singleton_self _)) h1
  · rw [if_neg h1, List.nil_append]
    refine iff_of_false ?_ h1
    split_ifs
    · rw [List.mem_singleton]
      exact awareness_ne_slowDown
    · exact List.not_mem_nil _

theorem hours_gt_two (timeSpent : ℤ) :
    (timeSpent : ℚ) / (1000 * 60 * 60) > 2 ↔ 7200000 < timeSpent := by
  rw [gt_iff_lt, lt_div_iff₀ (by norm_num)]
  have h : (2 : ℚ) * (1000 * 60 * 60) = ((7200000 : ℤ) : ℚ) := by norm_num
  rw [h, Int.cast_lt]

theorem hours_gt_one (timeSpent : ℤ) :
    (timeSpent : ℚ) / (1000 * 60 * 60) > 1 ↔ 3600000 < timeSpent := by
  rw [gt_iff_lt, lt_div_iff₀ (by norm_num)]
  have h : (1 : ℚ) * (1000 * 60 * 60) = ((3600000 : ℤ) : ℚ) := by norm_num
  rw [h, Int.cast_lt]

/-- The branches of `checkSessionDuration`, on the elapsed milliseconds. -/
theorem checkSessionDuration_eq (s : SessionData) (now : ℤ) :
    checkSessionDuration s now =
      if 7200000 < now - s.startTime then [longBreakIntervention]
      else if 3600000 < now - s.startTime then [checkInIntervention]
      else [] := by
  unfold checkSessionDuration
  simp only [hours_gt_two, hours_gt_one, Int.cast_sub]
  have h2 := hours_gt_two (now - s.startTime)
  have h1 := hours_gt_one (now - s.startTime)
  simp only [Int.cast_sub] at h1 h2
  simp only [h1, h2]

/-- The branch of `checkExposureIntervention`, on the count of recent exposures. -/
theorem checkExposureIntervention_eq (exposures : List Exposure) (now : ℤ) :
    checkExposureIntervention exposures now =
      if 5 < recentExposureCount exposures now then [exposureBreakIntervention] else [] := by
  unfold checkExposureIntervention recentExposureCount
  rw [List.countP_eq_length_filter]
  have h : (30 : ℤ) * 60 * 1000 = 1800000 := by norm_num
  simp only [h, gt_iff_lt]

theorem jsLength_empty : jsLength "" = 0 := by
  decide

/-- The result of `analyzeTextInput` when the event carries a text. -/
theorem analyzeTextInput_of_text (s : SessionData) (now : ℤ) (platform : String) (random : ℚ)
    (target : InputTarget) (text : String) (h : eventText target = some text) :
    analyzeTextInput s now platform random target =
      if jsLength text < 10 then (s, [])
      else if (analyzeTextSentiment text).label = "negative" ∧
          7 / 10 < (analyzeTextSentiment text).confidence then
        ({ s with textInteractions := s.textInteractions ++
            [⟨now, jsLength text, analyzeTextSentiment text, platform⟩] },
          suggestPositiveAlternative text random)
      else
        ({ s with textInteractions := s.textInteractions ++
            [⟨now, jsLength text, analyzeTextSentiment text, platform⟩] }, []) := by
  unfold analyzeTextInput
  rw [h]
  dsimp only
  by_cases hlen : jsLength text < 10
  · rw [if_pos (Or.inr hlen), if_pos hlen]
  · have hne : ¬ (text = "" ∨ jsLength text < 10) := by
      rintro (h0 | h0)
      · rw [h0, jsLength_empty] at hlen
        omega
      · exact hlen h0
    rw [if_neg hne, if_neg hlen]

theorem analyzeTextInput_of_none (s : SessionData) (now : ℤ) (platform : String) (random : ℚ)
    (target : InputTarget) (h : eventText target = none) :
    analyzeTextInput s now platform random target = (s, []) := by
  unfold analyzeTextInput
  rw [h]

theorem emittedTypes_suggest (text : String) (random : ℚ) :
    emittedTypes (suggestPositiveAlternative text random) = ["reframe"] := rfl

/-- The scroll listener only appends: after a sequence of scroll events the
buffer is the old buffer followed by one sample per event, in arrival order. -/
theorem runScrolls_scrollEvents (events : List (ℤ × ℚ)) (s : SessionData) :
    ∃ added : List ScrollSample,
      (runScrolls s events).scrollEvents = s.scrollEvents ++ added ∧
      added.map (fun e => (e.timestamp, e.scrollY)) = events := by
  induction events generalizing s with
  | nil => exact ⟨[], by simp [runScrolls], rfl⟩
  | cons e es ih =>
    obtain ⟨added, h1, h2⟩ := ih (scrollListener s e.1 e.2)
    refine ⟨⟨e.1, e.2, calculateScrollSpeed s.scrollEvents⟩ :: added, ?_, ?_⟩
    · show (runScrolls (scrollListener s e.1 e.2) es).scrollEvents = _
      rw [h1]
      simp [scrollListener]
    · simp [h2]

theorem runScrolls_length (events : List (ℤ × ℚ)) (s : SessionData) :
    (runScrolls s events).scrollEvents.length = s.scrollEvents.length + events.length := by
  obtain ⟨added, h1, h2⟩ := runScrolls_scrollEvents events s
  rw [h1, List.length_append, ← h2, List.length_map]

theorem runScrolls_startTime (events : List (ℤ × ℚ)) (s : SessionData) :
    (runScrolls s events).startTime = s.startTime := by
  induction events generalizing s with
  | nil => rfl
  | cons e es ih =>
    show (runScrolls (scrollListener s e.1 e.2) es).startTime = _
    rw [ih]
    rfl

theorem busySession_scrolls : busySession.scrollEvents.length = 101 := by
  show (runScrolls { startTime := 0 } (steadyScrolls 101)).scrollEvents.length = 101
  rw [runScrolls_length]
  show 0 + (steadyScrolls 101).length = 101
  unfold steadyScrolls
  rw [List.length_map, List.length_range]

theorem busySession_startTime : busySession.startTime = 0 := by
  show (runScrolls { startTime := 0 } (steadyScrolls 101)).startTime = 0
  rw [runScrolls_startTime]

theorem busySession_clicks : recentClickCount busySession.clickEvents 2000 = 21 := by
  show recentClickCount (clicksAt 21 1500) 2000 = 21
  decide

/-! ## Lemmas on the rolling buffers -/

theorem sliceLast_eq_lastN {α : Type} (k : Nat) (l : List α) : sliceLast k l = lastN k l := by
  unfold sliceLast lastN
  rw [List.take_reverse, List.reverse_reverse]

theorem length_sliceLast {α : Type} (k : Nat) (l : List α) :
    (sliceLast k l).length = min l.length k := by
  unfold sliceLast
  rw [List.length_drop]
  omega

/-- The list `sliceLast k l` is what is left of `l` once its first
`length - k` elements are removed. -/
theorem sliceLast_suffix {α : Type} (k : Nat) (l : List α) :
    l = l.take (l.length - k) ++ sliceLast k l := by
  unfold sliceLast
  rw [List.take_append_drop]

theorem getLast?_sliceLast_concat {α : Type} (k : Nat) (l : List α) (x : α) (hk : 0 < k) :
    (sliceLast k (l ++ [x])).getLast? = some x := by
  unfold sliceLast
  rw [List.length_append, List.length_singleton,
    List.drop_append_of_le_length (by omega),
    List.getLast?_append, List.getLast?_singleton]
  rfl

/-- The conditional `splice(0, length - 100)` of `trackNegativeContentExposure`
is `slice(-100)`. -/
theorem splice_eq_sliceLast {α : Type} (k : Nat) (l : List α) :
    (if l.length > k then l.drop (l.length - k) else l) = sliceLast k l := by
  unfold sliceLast
  split_ifs with h
  · rfl
  · have h0 : l.length - k = 0 := by omega
    rw [h0, List.drop_zero]

theorem trackNegativeContentExposure_stored (stored : Option (List Exposure)) (now : ℤ)
    (platform url : String) (nowCheck : ℤ) :
    (trackNegativeContentExposure stored now platform url nowCheck).1 =
      sliceLast 100 (stored.getD [] ++ [⟨now, platform, url⟩]) := by
  unfold trackNegativeContentExposure
  dsimp only
  rw [splice_eq_sliceLast]

theorem setCurrentMood_history (state : EmotionState) (m isoNow : String) :
    (emotionReducer state (.setCurrentMood m) isoNow).moodHistory =
      sliceLast 50 (state.moodHistory ++ [⟨m, isoNow⟩]) := rfl

theorem setMoods_bound (moods : List (String × String)) (state : EmotionState)
    (h : state.moodHistory.length ≤ 50) : (setMoods state moods).moodHistory.length ≤ 50 := by
  induction moods generalizing state with
  | nil => exact h
  | cons m ms ih =>
    show (setMoods (emotionReducer state (.setCurrentMood m.1) m.2) ms).moodHistory.length ≤ 50
    apply ih
    rw [setCurrentMood_history, length_sliceLast]
    omega

/-! ## Further lemmas on the scorer -/

/-- The four branches of the label resolution, each with the condition under
which it is taken. -/
theorem resolveLabel_cases (sc : Scores) :
    ((0 < sc.stressScore ∧ sc.positiveScore ≤ sc.stressScore) ∧
      (resolveLabel sc).label = "stressed" ∧
      (resolveLabel sc).confidence =
        min (7 / 10 + (sc.stressScore : ℚ) * (1 / 10)) (95 / 100)) ∨
    (¬ (0 < sc.stressScore ∧ sc.positiveScore ≤ sc.stressScore) ∧
      sc.positiveScore < sc.negativeScore ∧
      (resolveLabel sc).label = "negative" ∧
      (resolveLabel sc).confidence =
        min (6 / 10 + (sc.negativeScore : ℚ) * (1 / 10)) (95 / 100)) ∨
    (¬ (0 < sc.stressScore ∧ sc.positiveScore ≤ sc.stressScore) ∧
      sc.negativeScore < sc.positiveScore ∧
      (resolveLabel sc).label = "positive" ∧
      (resolveLabel sc).confidence =
        min (6 / 10 + (sc.positiveScore : ℚ) * (1 / 10)) (95 / 100)) ∨
    (¬ (0 < sc.stressScore ∧ sc.positiveScore ≤ sc.stressScore) ∧
      sc.positiveScore = sc.negativeScore ∧
      (resolveLabel sc).label = "neutral" ∧ (resolveLabel sc).confidence = 1 / 2) := by
  unfold resolveLabel
  by_cases h1 : sc.stressScore > 0 ∧ sc.stressScore ≥ sc.positiveScore
  · left
    rw [if_pos h1]
    exact ⟨h1, rfl, rfl⟩
  · right
    rw [if_neg h1]
    by_cases h2 : sc.negativeScore > sc.positiveScore
    · left
      rw [if_pos h2]
      exact ⟨h1, h2, rfl, rfl⟩
    · right
      rw [if_neg h2]
      by_cases h3 : sc.positiveScore > sc.negativeScore
      · left
        rw [if_pos h3]
        exact ⟨h1, h3, rfl, rfl⟩
      · right
        rw [if_neg h3]
        exact ⟨h1, by omega, rfl, rfl⟩

theorem resolveLabel_negative_iff (sc : Scores) :
    (resolveLabel sc).label = "negative" ↔
      ¬ (0 < sc.stressScore ∧ sc.positiveScore ≤ sc.stressScore) ∧
        sc.positiveScore < sc.negativeScore := by
  rcases resolveLabel_cases sc with ⟨h, l, _⟩ | ⟨h, h2, l, _⟩ | ⟨h, h2, l, _⟩ | ⟨h, h2, l, _⟩ <;>
    rw [l]
  · exact iff_of_false (by decide) (fun hc => hc.1 h)
  · exact iff_of_true rfl ⟨h, h2⟩
  · exact iff_of_false (by decide) (fun hc => by omega)
  · exact iff_of_false (by decide) (fun hc => by omega)

/-- The confidence of a text labelled negative. -/
theorem resolveLabel_negative_confidence (sc : Scores)
    (h : (resolveLabel sc).label = "negative") :
    (resolveLabel sc).confidence =
      min (6 / 10 + (sc.negativeScore : ℚ) * (1 / 10)) (95 / 100) ∧ 1 ≤ sc.negativeScore := by
  rcases resolveLabel_cases sc with ⟨_, l, _⟩ | ⟨_, h2, _, c⟩ | ⟨_, _, l, _⟩ | ⟨_, _, l, _⟩
  · rw [l] at h
    exact absurd h (by decide)
  · exact ⟨c, by omega⟩
  · rw [l] at h
    exact absurd h (by decide)
  · rw [l] at h
    exact absurd h (by decide)

theorem nat_cast_two_le (n : Nat) (h : 2 ≤ n) : (2 : ℚ) ≤ (n : ℚ) := by
  exact_mod_cast h

theorem nat_cast_one_le (n : Nat) (h : 1 ≤ n) : (1 : ℚ) ≤ (n : ℚ) := by
  exact_mod_cast h

/-- For a text labelled negative: confidence at least 0.7, equal to 0.7
exactly for one negative keyword, above 0.7 exactly for two or more. -/
theorem negative_confidence_facts (sc : Scores) (h : (resolveLabel sc).label = "negative") :
    7 / 10 ≤ (resolveLabel sc).confidence ∧
    ((resolveLabel sc).confidence = 7 / 10 ↔ sc.negativeScore = 1) ∧
    (7 / 10 < (resolveLabel sc).confidence ↔ 2 ≤ sc.negativeScore) ∧
    6 / 10 < (resolveLabel sc).confidence := by
  obtain ⟨hc, hn⟩ := resolveLabel_negative_confidence sc h
  rw [hc]
  have hn1 : (1 : ℚ) ≤ (sc.negativeScore : ℚ) := nat_cast_one_le _ hn
  have hlow : (7 : ℚ) / 10 ≤ min (6 / 10 + (sc.negativeScore : ℚ) * (1 / 10)) (95 / 100) :=
    le_min (by linarith) (by norm_num)
  by_cases h1 : sc.negativeScore = 1
  · have hval : min (6 / 10 + (sc.negativeScore : ℚ) * (1 / 10)) (95 / 100) = 7 / 10 := by
      rw [h1]
      norm_num
    refine ⟨hlow, iff_of_true hval h1, iff_of_false (by rw [hval]; exact lt_irrefl _) (by omega),
      by rw [hval]; norm_num⟩
  · have h2 : 2 ≤ sc.negativeScore := by omega
    have hn2 : (2 : ℚ) ≤ (sc.negativeScore : ℚ) := nat_cast_two_le _ h2
    have hgt : (7 : ℚ) / 10 < min (6 / 10 + (sc.negativeScore : ℚ) * (1 / 10)) (95 / 100) :=
      lt_min (by linarith) (by norm_num)
    exact ⟨hlow, iff_of_false (ne_of_gt hgt) h1, iff_of_true hgt h2, by linarith⟩

/-- Monotonicity of the confidence on the counters, label by label. -/
theorem resolveLabel_confidence_mono (a b : Scores)
    (hlabel : (resolveLabel a).label = (resolveLabel b).label)
    (hs : (resolveLabel a).label = "stressed" → a.stressScore ≤ b.stressScore)
    (hn : (resolveLabel a).label = "negative" → a.negativeScore ≤ b.negativeScore)
    (hp : (resolveLabel a).label = "positive" → a.positiveScore ≤ b.positiveScore) :
    (resolveLabel a).confidence ≤ (resolveLabel b).confidence := by
  rcases resolveLabel_cases a with ⟨_, la, ca⟩ | ⟨_, _, la, ca⟩ | ⟨_, _, la, ca⟩ | ⟨_, _, la, ca⟩ <;>
    rcases resolveLabel_cases b with ⟨_, lb, cb⟩ | ⟨_, _, lb, cb⟩ | ⟨_, _, lb, cb⟩ | ⟨_, _, lb, cb⟩ <;>
    rw [la, lb] at hlabel <;> rw [la] at hs hn hp <;> rw [ca, cb] <;>
    first
      | exact absurd hlabel (by decide)
      | exact le_refl _
      | (have h := hs rfl
         have hq : (a.stressScore : ℚ) ≤ (b.stressScore : ℚ) := by exact_mod_cast h
         exact min_le_min (by linarith) (le_refl _))
      | (have h := hn rfl
         have hq : (a.negativeScore : ℚ) ≤ (b.negativeScore : ℚ) := by exact_mod_cast h
         exact min_le_min (by linarith) (le_refl _))
      | (have h := hp rfl
         have hq : (a.positiveScore : ℚ) ≤ (b.positiveScore : ℚ) := by exact_mod_cast h
         exact min_le_min (by linarith) (le_refl _))

/-- The floor of the confidence for each label. -/
theorem resolveLabel_floor (sc : Scores) :
    ((resolveLabel sc).label = "stressed" → 7 / 10 ≤ (resolveLabel sc).confidence) ∧
    ((resolveLabel sc).label = "negative" → 6 / 10 ≤ (resolveLabel sc).confidence) ∧
    ((resolveLabel sc).label = "positive" → 6 / 10 ≤ (resolveLabel sc).confidence) ∧
    ((resolveLabel sc).label = "neutral" → (resolveLabel sc).confidence = 1 / 2) := by
  have hs : (0 : ℚ) ≤ sc.stressScore := Nat.cast_nonneg _
  have hn : (0 : ℚ) ≤ sc.negativeScore := Nat.cast_nonneg _
  have hp : (0 : ℚ) ≤ sc.positiveScore := Nat.cast_nonneg _
  rcases resolveLabel_cases sc with ⟨_, l, c⟩ | ⟨_, _, l, c⟩ | ⟨_, _, l, c⟩ | ⟨_, _, l, c⟩ <;>
    rw [l, c]
  · exact ⟨fun _ => le_min (by linarith) (by norm_num), fun h => absurd h (by decide),
      fun h => absurd h (by decide), fun h => absurd h (by decide)⟩
  · exact ⟨fun h => absurd h (by decide), fun _ => le_min (by linarith) (by norm_num),
      fun h => absurd h (by decide), fun h => absurd h (by decide)⟩
  · exact ⟨fun h => absurd h (by decide), fun h => absurd h (by decide),
      fun _ => le_min (by linarith) (by norm_num), fun h => absurd h (by decide)⟩
  · exact ⟨fun h => absurd h (by decide), fun h => absurd h (by decide),
      fun h => absurd h (by decide), fun _ => rfl⟩

/-- The counter that `dominantCount` reads, on the counters of the text. -/
theorem dominantCount_eq (text : String) :
    ((analyzeTextSentiment text).label = "stressed" →
      dominantCount text = keywordCount emotionKeywords.stress text) ∧
    ((analyzeTextSentiment text).label = "negative" →
      dominantCount text = keywordCount emotionKeywords.negative text) ∧
    ((analyzeTextSentiment text).label = "positive" →
      dominantCount text = keywordCount emotionKeywords.positive text) := by
  unfold dominantCount
  refine ⟨fun h => by rw [if_pos h], fun h => ?_, fun h => ?_⟩
  · rw [if_neg (by rw [h]; decide), if_pos h]
  · rw [if_neg (by rw [h]; decide), if_neg (by rw [h]; decide), if_pos h]

theorem memCount_eq_zero (kws words : List String) (h : ∀ w ∈ words, w ∉ kws) :
    memCount kws words = 0 := by
  unfold memCount
  rw [List.length_eq_zero, List.filter_eq_nil_iff]
  intro w hw
  simpa using h w hw

/-- A text none of whose tokens is a keyword gets the default result. -/
theorem analyzeTextSentiment_no_keyword (text : String)
    (h : ∀ w ∈ tokens text, w ∉ emotionKeywords.positive ∧ w ∉ emotionKeywords.negative ∧
      w ∉ emotionKeywords.stress) :
    analyzeTextSentiment text = ⟨"neutral", 1 / 2⟩ := by
  rw [analyzeTextSentiment_eq]
  unfold keywordCount
  rw [memCount_eq_zero _ _ (fun w hw => (h w hw).1),
    memCount_eq_zero _ _ (fun w hw => (h w hw).2.1),
    memCount_eq_zero _ _ (fun w hw => (h w hw).2.2)]
  simp [resolveLabel]

/-- Splitting a run of non-word characters yields empty pieces only. -/
theorem splitNonWordAux_nonword (cs : List Char) (h : ∀ c ∈ cs, isWordChar c = false)
    (inSep : Bool) : ∀ w ∈ splitNonWordAux [] inSep cs, w = "" := by
  induction cs generalizing inSep with
  | nil =>
    intro w hw
    simp only [splitNonWordAux, List.reverse_nil, List.mem_singleton] at hw
    rw [hw]
  | cons c cs ih =>
    have hc : isWordChar c = false := h c (List.mem_cons_self c cs)
    have hcs : ∀ d ∈ cs, isWordChar d = false := fun d hd => h d (List.mem_cons_of_mem c hd)
    intro w hw
    unfold splitNonWordAux at hw
    rw [if_neg (by rw [hc]; decide)] at hw
    cases inSep with
    | true =>
      rw [if_pos rfl] at hw
      exact ih hcs true w hw
    | false =>
      rw [if_neg (by decide)] at hw
      rcases List.mem_cons.1 hw with h1 | h1
      · rw [h1]
        rfl
      · exact ih hcs true w h1

theorem empty_not_keyword :
    "" ∉ emotionKeywords.positive ∧ "" ∉ emotionKeywords.negative ∧
      "" ∉ emotionKeywords.stress := by
  decide

/-- A text whose lower-cased characters are all non-word characters gets the
default result. -/
theorem analyzeTextSentiment_nonword (text : String)
    (h : ∀ c ∈ toLowerCase text, isWordChar c = false) :
    analyzeTextSentiment text = ⟨"neutral", 1 / 2⟩ := by
  apply analyzeTextSentiment_no_keyword
  intro w hw
  have hw0 : w = "" := splitNonWordAux_nonword (toLowerCase text) h false w hw
  rw [hw0]
  exact empty_not_keyword

theorem lowerChar_whitespace (c : Char) (h : c.isWhitespace = true) :
    lowerChar c = [c] ∧ isWordChar c = false := by
  unfold Char.isWhitespace at h
  simp only [Bool.or_eq_true, decide_eq_true_eq] at h
  rcases h with ((h | h) | h) | h <;> rw [h] <;> decide

theorem toLowerCase_whitespace (text : String) (h : ∀ c ∈ text.toList, c.isWhitespace = true) :
    ∀ c ∈ toLowerCase text, isWordChar c = false := by
  intro c hc
  unfold toLowerCase at hc
  rw [List.mem_flatMap] at hc
  obtain ⟨d, hd, hcd⟩ := hc
  have hw := lowerChar_whitespace d (h d hd)
  rw [hw.1, List.mem_singleton] at hcd
  rw [hcd]
  exact hw.2

/-- The three keyword lists of the content script are pairwise disjoint. -/
theorem emotionKeywords_disjoint (w : String) :
    ¬ (w ∈ emotionKeywords.positive ∧ w ∈ emotionKeywords.negative) ∧
    ¬ (w ∈ emotionKeywords.positive ∧ w ∈ emotionKeywords.stress) ∧
    ¬ (w ∈ emotionKeywords.negative ∧ w ∈ emotionKeywords.stress) := by
  have h1 : ∀ v ∈ emotionKeywords.positive, v ∉ emotionKeywords.negative := by decide
  have h2 : ∀ v ∈ emotionKeywords.positive, v ∉ emotionKeywords.stress := by decide
  have h3 : ∀ v ∈ emotionKeywords.negative, v ∉ emotionKeywords.stress := by decide
  exact ⟨fun h => h1 w h.1 h.2, fun h => h2 w h.1 h.2, fun h => h3 w h.1 h.2⟩

theorem memCount_sum_le (words : List String) :
    memCount emotionKeywords.positive words + memCount emotionKeywords.negative words +
      memCount emotionKeywords.stress words ≤ words.length := by
  induction words with
  | nil => simp [memCount_nil]
  | cons w ws ih =>
    rw [memCount_cons, memCount_cons, memCount_cons, List.length_cons]
    obtain ⟨d1, d2, d3⟩ := emotionKeywords_disjoint w
    by_cases hp : w ∈ emotionKeywords.positive <;> by_cases hn : w ∈ emotionKeywords.negative <;>
      by_cases hs : w ∈ emotionKeywords.stress <;>
      simp only [hp, hn, hs, if_true, if_false, and_self, not_true_eq_false] at d1 d2 d3 ⊢ <;>
      omega

/-! ## Further lemmas on the passes, the trend estimator and the scroll window -/

/-- With a text of 10 characters or more, the reframe is emitted exactly
when the scorer says negative with confidence above 0.7. -/
theorem reframe_mem_iff (s : SessionData) (now : ℤ) (platform : String) (random : ℚ)
    (target : InputTarget) (text : String) (h : eventText target = some text)
    (hlen : 10 ≤ jsLength text) :
    "reframe" ∈ emittedTypes (analyzeTextInput s now platform random target).2 ↔
      (analyzeTextSentiment text).label = "negative" ∧
        7 / 10 < (analyzeTextSentiment text).confidence := by
  rw [analyzeTextInput_of_text s now platform random target text h, if_neg (by omega)]
  by_cases hneg : (analyzeTextSentiment text).label = "negative" ∧
      7 / 10 < (analyzeTextSentiment text).confidence
  · rw [if_pos hneg]
    refine iff_of_true ?_ hneg
    show "reframe" ∈ emittedTypes (suggestPositiveAlternative text random)
    rw [emittedTypes_suggest]
    exact List.mem_singleton_self _
  · rw [if_neg hneg]
    exact iff_of_false (by show "reframe" ∉ emittedTypes []; decide) hneg

theorem analyzeNewContent_exposure (textContent : Option String) :
    (analyzeNewContent textContent).exposure = true ↔
      (analyzeTextSentiment (feedText textContent)).label = "negative" ∧
        6 / 10 < (analyzeTextSentiment (feedText textContent)).confidence := by
  unfold analyzeNewContent
  simp only [decide_eq_true_eq, gt_iff_lt]

theorem moodScore_sq_le (e : MoodEntry) : moodScore e ^ 2 ≤ 4 := by
  unfold moodScore
  split_ifs <;> norm_num

theorem moodScore_congr (e : MoodEntry) (m : String) (h : e.mood = m) :
    moodScore e = moodScore ⟨m, ""⟩ := by
  unfold moodScore
  rw [h]

/-- Expansion of the sum of squared deviations from any number `a`. -/
theorem sum_sq_dev (xs : List ℚ) (a : ℚ) :
    (xs.map (fun x => (x - a) ^ 2)).sum =
      (xs.map (fun x => x ^ 2)).sum - 2 * a * xs.sum + (xs.length : ℚ) * a ^ 2 := by
  induction xs with
  | nil => simp
  | cons x xs ih =>
    simp only [List.map_cons, List.sum_cons, List.length_cons, ih]
    push_cast
    ring

theorem sum_map_le {α : Type} (f : α → ℚ) (c : ℚ) (l : List α) (h : ∀ e ∈ l, f e ≤ c) :
    (l.map f).sum ≤ (l.length : ℚ) * c := by
  induction l with
  | nil => simp
  | cons x xs ih =>
    have hx : f x ≤ c := h x (List.mem_cons_self x xs)
    have hxs : ∀ e ∈ xs, f e ≤ c := fun e he => h e (List.mem_cons_of_mem x he)
    have := ih hxs
    simp only [List.map_cons, List.sum_cons, List.length_cons]
    push_cast
    linarith

theorem sum_map_sq_nonneg (xs : List ℚ) (a : ℚ) : 0 ≤ (xs.map (fun x => (x - a) ^ 2)).sum := by
  apply List.sum_nonneg
  intro y hy
  rw [List.mem_map] at hy
  obtain ⟨x, _, rfl⟩ := hy
  exact sq_nonneg _

/-- The population variance of seven numbers of absolute value at most 2 lies
between 0 and 4. -/
theorem populationVariance_bounds (xs : List ℚ) (hlen : xs.length = 7)
    (h : ∀ x ∈ xs, x ^ 2 ≤ 4) :
    0 ≤ populationVariance xs ∧ populationVariance xs ≤ 4 := by
  unfold populationVariance
  constructor
  · exact div_nonneg (sum_map_sq_nonneg xs (mean xs)) (by norm_num)
  · rw [div_le_iff₀ (by norm_num), sum_sq_dev]
    have hsq : (xs.map (fun x => x ^ 2)).sum ≤ (xs.length : ℚ) * 4 :=
      sum_map_le (fun x => x ^ 2) 4 xs h
    have hmean : xs.sum = 7 * mean xs := by
      unfold mean
      rw [hlen]
      push_cast
      field_simp
    rw [hlen] at hsq ⊢
    rw [hmean]
    push_cast at hsq ⊢
    nlinarith [sq_nonneg (mean xs)]

/-- The confidence formula is at least 0.2 when the variance is in [0, 4]. -/
theorem confidenceOf_lower (a v : ℚ) (h0 : 0 ≤ v) (h4 : v ≤ 4) : 2 / 10 ≤ confidenceOf a v := by
  unfold confidenceOf
  have h1 : (1 : ℚ) / 5 ≤ 1 / (1 + v) :=
    one_div_le_one_div_of_le (by linarith) (by linarith)
  have h2 : (0 : ℚ) ≤ |a| := abs_nonneg a
  exact le_min (by linarith) (by norm_num)

theorem confidenceOf_upper (a v : ℚ) : confidenceOf a v ≤ 95 / 100 := by
  unfold confidenceOf
  exact min_le_right _ _

/-- The population variance of a list of equal numbers is 0. -/
theorem populationVariance_const (xs : List ℚ) (c : ℚ) (hlen : xs.length = 7)
    (h : ∀ x ∈ xs, x = c) : populationVariance xs = 0 := by
  have hsum : xs.sum = (xs.length : ℚ) * c := by
    have := sum_map_const (fun x : ℚ => x) c xs h
    simpa using this
  have hmean : mean xs = c := by
    unfold mean
    rw [hsum, hlen]
    push_cast
    field_simp
  unfold populationVariance
  rw [hmean]
  have hz : (xs.map (fun x => (x - c) ^ 2)).sum = 0 := by
    have := sum_map_const (fun x : ℚ => (x - c) ^ 2) 0 xs
      (fun x hx => by rw [h x hx]; ring)
    rw [this]
    ring
  rw [hz]
  norm_num

theorem scrollWindow_of_le (buffer : List ScrollSample) (h : buffer.length ≤ 10) :
    scrollWindow buffer = buffer := by
  unfold scrollWindow
  rw [min_eq_right h, ← List.length_reverse buffer, List.take_length, List.reverse_reverse]

/-- With non-negative speeds, the sum of the speeds is at least 5 times the
number of samples above 5, and more than that when there is such a sample. -/
theorem speed_sum_lower (l : List ScrollSample) (h : ∀ e ∈ l, 0 ≤ e.scrollSpeed) :
    5 * (rapidCount l : ℚ) ≤ (l.map (fun e => e.scrollSpeed)).sum ∧
    (0 < rapidCount l → 5 * (rapidCount l : ℚ) < (l.map (fun e => e.scrollSpeed)).sum) := by
  induction l with
  | nil =>
    refine ⟨by simp [rapidCount], fun h0 => ?_⟩
    simp [rapidCount] at h0
  | cons x xs ih =>
    have hx : 0 ≤ x.scrollSpeed := h x (List.mem_cons_self x xs)
    have hxs : ∀ e ∈ xs, 0 ≤ e.scrollSpeed := fun e he => h e (List.mem_cons_of_mem x he)
    obtain ⟨ih1, ih2⟩ := ih hxs
    by_cases hr : x.scrollSpeed > 5
    · have hc : rapidCount (x :: xs) = rapidCount xs + 1 := by
        unfold rapidCount
        rw [List.countP_cons_of_pos _ _ (by simpa using hr)]
      rw [hc]
      simp only [List.map_cons, List.sum_cons]
      push_cast
      exact ⟨by linarith, fun _ => by linarith⟩
    · have hc : rapidCount (x :: xs) = rapidCount xs := by
        unfold rapidCount
        rw [List.countP_cons_of_neg _ _ (by simpa using hr)]
      rw [hc]
      simp only [List.map_cons, List.sum_cons]
      exact ⟨by linarith, fun h0 => by have := ih2 h0; linarith⟩

theorem predictResolve_cases (sc : Scores) :
    ((resolveLabel sc).label = "stressed" ∧ (predictResolve sc).label = "Stressed") ∨
    ((resolveLabel sc).label = "negative" ∧ (predictResolve sc).label = "Negative") ∨
    ((resolveLabel sc).label = "positive" ∧ (predictResolve sc).label = "Positive") ∨
    ((resolveLabel sc).label = "neutral" ∧ (predictResolve sc).label = "Neutral") := by
  unfold resolveLabel predictResolve
  by_cases h1 : sc.stressScore > 0 ∧ sc.stressScore ≥ sc.positiveScore
  · rw [if_pos h1, if_pos h1]
    exact Or.inl ⟨rfl, rfl⟩
  · rw [if_neg h1, if_neg h1]
    by_cases h2 : sc.negativeScore > sc.positiveScore
    · rw [if_pos h2, if_pos h2]
      exact Or.inr (Or.inl ⟨rfl, rfl⟩)
    · rw [if_neg h2, if_neg h2]
      by_cases h3 : sc.positiveScore > sc.negativeScore
      · rw [if_pos h3, if_pos h3]
        exact Or.inr (Or.inr (Or.inl ⟨rfl, rfl⟩))
      · rw [if_neg h3, if_neg h3]
        exact Or.inr (Or.inr (Or.inr ⟨rfl, rfl⟩))

theorem predictResolve_confidence (sc : Scores) :
    (predictResolve sc).confidence = (resolveLabel sc).confidence := by
  unfold resolveLabel predictResolve
  split_ifs <;> rfl

/-! ## Claims on the scorer -/

/-- C1: with p, n, s the numbers of lower-cased tokens of the text found in
the positive, negative and stress keyword lists, the scorer returns stressed
with min(0.7 + 0.1 s, 0.95) when s > 0 and s >= p, else negative with
min(0.6 + 0.1 n, 0.95) when n > p, else positive with min(0.6 + 0.1 p, 0.95)
when p > n, else neutral with 0.5; so s >= 1 and s >= p gives stressed
whatever n is, and p = n with s = 0 gives neutral even when p > 0. -/
theorem analyzeTextSentiment_resolution (text : String) :
    analyzeTextSentiment text =
      (if 0 < keywordCount emotionKeywords.stress text ∧
          keywordCount emotionKeywords.positive text ≤ keywordCount emotionKeywords.stress text then
        ⟨"stressed", min (7 / 10 + 1 / 10 * (keywordCount emotionKeywords.stress text : ℚ)) (95 / 100)⟩
      else if keywordCount emotionKeywords.positive text < keywordCount emotionKeywords.negative text then
        ⟨"negative", min (6 / 10 + 1 / 10 * (keywordCount emotionKeywords.negative text : ℚ)) (95 / 100)⟩
      else if keywordCount emotionKeywords.negative text < keywordCount emotionKeywords.positive text then
        ⟨"positive", min (6 / 10 + 1 / 10 * (keywordCount emotionKeywords.positive text : ℚ)) (95 / 100)⟩
      else ⟨"neutral", 1 / 2⟩)
    ∧ (1 ≤ keywordCount emotionKeywords.stress text →
        keywordCount emotionKeywords.positive text ≤ keywordCount emotionKeywords.stress text →
        (analyzeTextSentiment text).label = "stressed")
    ∧ (keywordCount emotionKeywords.positive text = keywordCount emotionKeywords.negative text →
        keywordCount emotionKeywords.stress text = 0 →
        analyzeTextSentiment text = ⟨"neutral", 1 / 2⟩) := by
  rw [analyzeTextSentiment_eq]
  refine ⟨?_, ?_, ?_⟩
  · unfold resolveLabel
    simp only [gt_iff_lt, ge_iff_le, mul_comm]
  · intro h1 h2
    have : 0 < keywordCount emotionKeywords.stress text ∧
        keywordCount emotionKeywords.positive text ≤ keywordCount emotionKeywords.stress text :=
      ⟨h1, h2⟩
    simp [resolveLabel, this]
  · intro h1 h2
    simp [resolveLabel, h1, h2]

/-- Instance of C1: "happy sad exam" has p = n = s = 1 and is labelled
stressed; "happy sad" has p = n = 1, s = 0 and is neutral with 0.5. -/
theorem analyzeTextSentiment_resolution_witness :
    (analyzeTextSentiment "happy sad exam").label = "stressed" ∧
    analyzeTextSentiment "happy sad" = ⟨"neutral", 1 / 2⟩ :=
  ⟨(analyzeTextSentiment_resolution "happy sad exam").2.1 (by decide) (by decide),
   (analyzeTextSentiment_resolution "happy sad").2.2 (by decide) (by decide)⟩

/-- C2: for every text the confidence returned by the scorer lies in
[0.5, 0.95] and the label is one of positive, negative, neutral, stressed. -/
theorem analyzeTextSentiment_range (text : String) :
    1 / 2 ≤ (analyzeTextSentiment text).confidence ∧
    (analyzeTextSentiment text).confidence ≤ 95 / 100 ∧
    (analyzeTextSentiment text).label ∈ ["positive", "negative", "neutral", "stressed"] := by
  unfold analyzeTextSentiment
  exact ⟨(resolveLabel_confidence_bounds _).1, (resolveLabel_confidence_bounds _).2,
    resolveLabel_label_mem _⟩

/-! ## Claims on the trend estimator -/

/-- C3: on a history of at least 7 samples the trend is improving when the
returned averageScore is above 0.5, declining when it is below -0.5 and
stable otherwise (0.5 and -0.5 included); the history positive, positive and
five times negative has averageScore -1/7 and trend stable. -/
theorem predictMoodTrend_trend_rule :
    (∀ history : List MoodEntry, 7 ≤ history.length →
      ∃ a : ℚ, (predictMoodTrend history).averageScore = some a ∧
        (1 / 2 < a → (predictMoodTrend history).trend = "improving") ∧
        (a < -(1 / 2) → (predictMoodTrend history).trend = "declining") ∧
        (-(1 / 2) ≤ a → a ≤ 1 / 2 → (predictMoodTrend history).trend = "stable"))
    ∧ (predictMoodTrend [⟨"positive", ""⟩, ⟨"positive", ""⟩, ⟨"negative", ""⟩, ⟨"negative", ""⟩,
        ⟨"negative", ""⟩, ⟨"negative", ""⟩, ⟨"negative", ""⟩]).averageScore = some (-1 / 7)
    ∧ (predictMoodTrend [⟨"positive", ""⟩, ⟨"positive", ""⟩, ⟨"negative", ""⟩, ⟨"negative", ""⟩,
        ⟨"negative", ""⟩, ⟨"negative", ""⟩, ⟨"negative", ""⟩]).trend = "stable" := by
  refine ⟨?_, ?_, ?_⟩
  · intro history hlen
    rw [predictMoodTrend_of_length history hlen]
    refine ⟨_, rfl, ?_, ?_, ?_⟩
    · intro h
      simp only [trendOf, gt_iff_lt, h, if_true]
    · intro h
      have h2 : ¬ (1 / 2 < averageScoreOf ((lastSeven history).map moodScore)) := by linarith
      simp only [trendOf, gt_iff_lt, h2, if_false, h, if_true]
    · intro h1 h2
      have h3 : ¬ (1 / 2 < averageScoreOf ((lastSeven history).map moodScore)) := by linarith
      have h4 : ¬ (averageScoreOf ((lastSeven history).map moodScore) < -(1 / 2)) := by linarith
      simp only [trendOf, gt_iff_lt, h3, h4, if_false]
  · rw [predictMoodTrend_of_length _ (by decide)]
    norm_num [lastSeven, averageScoreOf, moodScore_positive, moodScore_negative]
  · rw [predictMoodTrend_of_length _ (by decide)]
    norm_num [lastSeven, averageScoreOf, moodScore_positive, moodScore_negative, trendOf]

/-- C4: on a history of at least 7 samples the averageScore is the arithmetic
mean of the scores of the last 7 samples under positive -> 2, neutral -> 1,
negative -> -1, stressed -> -2, other -> 0; the result is that of the last 7
samples alone, and seven positive samples at the end give averageScore 2 and
trend improving. -/
theorem predictMoodTrend_average :
    (∀ history : List MoodEntry, 7 ≤ history.length →
      (predictMoodTrend history).averageScore =
          some (mean ((lastSeven history).map moodScore)) ∧
        predictMoodTrend history = predictMoodTrend (lastSeven history) ∧
        ((∀ e ∈ lastSeven history, e.mood = "positive") →
          (predictMoodTrend history).averageScore = some 2 ∧
          (predictMoodTrend history).trend = "improving"))
    ∧ (∀ t : String, moodScore ⟨"positive", t⟩ = 2 ∧ moodScore ⟨"neutral", t⟩ = 1 ∧
        moodScore ⟨"negative", t⟩ = -1 ∧ moodScore ⟨"stressed", t⟩ = -2)
    ∧ (∀ m t : String, m ∉ ["positive", "neutral", "negative", "stressed"] →
        moodScore ⟨m, t⟩ = 0) := by
  refine ⟨?_, ?_, ?_⟩
  · intro history hlen
    have hseven : (lastSeven history).length = 7 := length_lastSeven history hlen
    refine ⟨?_, ?_, ?_⟩
    · rw [predictMoodTrend_of_length history hlen, averageScoreOf_eq_mean]
    · rw [predictMoodTrend_of_length history hlen,
        predictMoodTrend_of_length (lastSeven history) (le_of_eq hseven.symm),
        lastSeven_of_length (lastSeven history) hseven]
    · intro hall
      have hmean : averageScoreOf ((lastSeven history).map moodScore) = 2 := by
        rw [averageScoreOf_eq_mean]
        unfold mean
        rw [sum_map_const moodScore 2 (lastSeven history)
          (fun e he => by
            have := hall e he
            unfold moodScore
            rw [if_pos this]),
          List.length_map, hseven]
        norm_num
      rw [predictMoodTrend_of_length history hlen, hmean]
      refine ⟨rfl, ?_⟩
      norm_num [trendOf]
  · intro t
    exact ⟨moodScore_positive t, moodScore_neutral t, moodScore_negative t, moodScore_stressed t⟩
  · intro m t h
    exact moodScore_other m t h

/-- Instance of C4: seven positive samples after a stressed one. -/
theorem predictMoodTrend_average_witness :
    (predictMoodTrend (⟨"stressed", ""⟩ :: List.replicate 7 ⟨"positive", ""⟩)).averageScore = some 2 ∧
    (predictMoodTrend (⟨"stressed", ""⟩ :: List.replicate 7 ⟨"positive", ""⟩)).trend = "improving" :=
  (predictMoodTrend_average.1 (⟨"stressed", ""⟩ :: List.replicate 7 ⟨"positive", ""⟩)
    (by decide)).2.2 (by decide)

/-- C5: a history of fewer than 7 samples gives trend insufficient_data with
confidence 0 (a plain result, the function is total), and a history of 7 or
more samples never gives insufficient_data. -/
theorem predictMoodTrend_insufficient (history : List MoodEntry) :
    (history.length < 7 →
      predictMoodTrend history =
        { trend := "insufficient_data", confidence := 0, averageScore := none,
          recommendation := none }) ∧
    (7 ≤ history.length → (predictMoodTrend history).trend ≠ "insufficient_data") := by
  constructor
  · intro h
    unfold predictMoodTrend
    rw [if_pos h]
  · intro h
    rw [predictMoodTrend_of_length history h]
    have hmem := trendOf_mem (averageScoreOf ((lastSeven history).map moodScore))
    intro heq
    dsimp only at heq
    rw [heq] at hmem
    revert hmem
    decide

/-- Instance of C5: the empty history and a history of six positive samples. -/
theorem predictMoodTrend_insufficient_witness :
    (predictMoodTrend []).trend = "insufficient_data" ∧
    (predictMoodTrend (List.replicate 6 ⟨"positive", ""⟩)).confidence = 0 ∧
    (predictMoodTrend (List.replicate 7 ⟨"positive", ""⟩)).trend ≠ "insufficient_data" :=
  ⟨congrArg TrendResult.trend ((predictMoodTrend_insufficient []).1 (by decide)),
   congrArg TrendResult.confidence
     ((predictMoodTrend_insufficient (List.replicate 6 ⟨"positive", ""⟩)).1 (by decide)),
   (predictMoodTrend_insufficient (List.replicate 7 ⟨"positive", ""⟩)).2 (by decide)⟩

/-- C6: on a history of at least 7 samples the confidence is
min(|averageScore| + 1/(1 + variance), 0.95), the variance being the
population variance (squared deviations from averageScore, summed and divided
by 7) of the mapped scores of the last 7 samples. -/
theorem predictMoodTrend_confidence (history : List MoodEntry) (hlen : 7 ≤ history.length) :
    ∃ a : ℚ, (predictMoodTrend history).averageScore = some a ∧
      a = mean ((lastSeven history).map moodScore) ∧
      (predictMoodTrend history).confidence =
        min (|a| + 1 / (1 + populationVariance ((lastSeven history).map moodScore))) (95 / 100) := by
  rw [predictMoodTrend_of_length history hlen]
  refine ⟨_, rfl, averageScoreOf_eq_mean _, ?_⟩
  dsimp only
  rw [varianceOf_eq _ (by rw [List.length_map]; exact length_lastSeven history hlen)]
  rfl

/-- Instance of C6: six neutral samples and a positive one have mean 8/7,
population variance 6/49 and confidence 0.95. -/
theorem predictMoodTrend_confidence_witness :
    ∃ a : ℚ,
      (predictMoodTrend (List.replicate 6 ⟨"neutral", ""⟩ ++ [⟨"positive", ""⟩])).averageScore
        = some a ∧
      a = mean ((lastSeven (List.replicate 6 ⟨"neutral", ""⟩ ++ [⟨"positive", ""⟩])).map moodScore) ∧
      (predictMoodTrend (List.replicate 6 ⟨"neutral", ""⟩ ++ [⟨"positive", ""⟩])).confidence =
        min (|a| + 1 / (1 + populationVariance
          ((lastSeven (List.replicate 6 ⟨"neutral", ""⟩ ++ [⟨"positive", ""⟩])).map moodScore)))
          (95 / 100) :=
  predictMoodTrend_confidence (List.replicate 6 ⟨"neutral", ""⟩ ++ [⟨"positive", ""⟩]) (by decide)

/-- C7: on histories of at least 7 samples the recommendation is a function
of the trend alone: priority high exactly when the trend is declining
(averageScore below -0.5), low exactly when improving (averageScore above
0.5), medium exactly when stable, always with three actions, and two
histories with the same trend get the same recommendation. -/
theorem predictMoodTrend_recommendation (history : List MoodEntry) (hlen : 7 ≤ history.length) :
    ∃ (r : Recommendation) (a : ℚ),
      (predictMoodTrend history).recommendation = some r ∧
      (predictMoodTrend history).averageScore = some a ∧
      (r.priority = "high" ↔ (predictMoodTrend history).trend = "declining") ∧
      ((predictMoodTrend history).trend = "declining" ↔ a < -(1 / 2)) ∧
      (r.priority = "low" ↔ (predictMoodTrend history).trend = "improving") ∧
      ((predictMoodTrend history).trend = "improving" ↔ 1 / 2 < a) ∧
      (r.priority = "medium" ↔ (predictMoodTrend history).trend = "stable") ∧
      r.actions.length = 3 ∧
      (∀ other : List MoodEntry, 7 ≤ other.length →
        (predictMoodTrend other).trend = (predictMoodTrend history).trend →
        (predictMoodTrend other).recommendation = some r) := by
  rw [predictMoodTrend_of_length history hlen]
  exact ⟨_, _, rfl, rfl, priority_high_iff _ _, trendOf_eq_declining _, priority_low_iff _ _,
    trendOf_eq_improving _, priority_medium_iff _ _ (trendOf_mem _), actions_length _ _,
    fun other hother htrend => by
      rw [predictMoodTrend_of_length other hother] at htrend ⊢
      dsimp only at htrend ⊢
      rw [htrend]
      rfl⟩

/-- Instance of C7: seven stressed samples are declining and get the
high-priority recommendation with its three actions. -/
theorem predictMoodTrend_recommendation_witness :
    ∃ r : Recommendation,
      (predictMoodTrend (List.replicate 7 ⟨"stressed", ""⟩)).recommendation = some r ∧
      r.priority = "high" ∧ r.actions.length = 3 := by
  obtain ⟨r, a, hr, ha, hhigh, hdecl, _, _, _, hact, _⟩ :=
    predictMoodTrend_recommendation (List.replicate 7 ⟨"stressed", ""⟩) (by decide)
  refine ⟨r, hr, hhigh.2 (hdecl.2 ?_), hact⟩
  have hlen : 7 ≤ (List.replicate 7 (⟨"stressed", ""⟩ : MoodEntry)).length := by decide
  have havg := predictMoodTrend_of_length (List.replicate 7 ⟨"stressed", ""⟩) hlen
  rw [havg] at ha
  have : a = averageScoreOf ((lastSeven (List.replicate 7 ⟨"stressed", ""⟩)).map moodScore) :=
    (Option.some.inj ha).symm
  rw [this]
  norm_num [lastSeven, averageScoreOf, moodScore_stressed, List.replicate]

/-! ## Claims on the aggregator -/

/-- C8 (the code departs from it): the sample appended by the scroll listener
carries the speed between the two samples already in the buffer, so it does
not depend on the offset and time of the event being recorded. After the
events (t = 0, y = 0), (t = 10, y = 100), (t = 20, y = 100) the recorded
speeds are 0, 0, 10, where speed = |offset - previous.offset| /
(now - previous.timestamp) would give 0, 10, 0. -/
theorem scrollListener_speed_lags :
    (runScrolls { startTime := 0 } [(0, 0), (10, 100), (20, 100)]).scrollEvents =
      [⟨0, 0, 0⟩, ⟨10, 100, 0⟩, ⟨20, 100, 10⟩]
    ∧ (∀ (s : SessionData) (now now2 : ℤ) (y y2 : ℚ),
        ((scrollListener s now y).scrollEvents.map (fun e => e.scrollSpeed)) =
        ((scrollListener s now2 y2).scrollEvents.map (fun e => e.scrollSpeed))) := by
  constructor
  · norm_num [runScrolls, scrollListener, calculateScrollSpeed]
  · intro s now now2 y y2
    simp [scrollListener]

/-- C10: checkBrowsingPatterns emits the slow-down intervention exactly when
more than 20 clicks have now - timestamp < 60000; 21 clicks inside the
trailing 60 seconds fire it, 20 or fewer clicks never do, and clicks that
are 60000 ms old or older are not counted. -/
theorem checkBrowsingPatterns_rapid_clicks (s : SessionData) (now : ℤ) :
    (slowDownIntervention ∈ checkBrowsingPatterns s now ↔
      20 < recentClickCount s.clickEvents now)
    ∧ ((∀ c ∈ s.clickEvents, now - c.timestamp < 60000) → s.clickEvents.length = 21 →
        slowDownIntervention ∈ checkBrowsingPatterns s now)
    ∧ (s.clickEvents.length = 19 ∨ s.clickEvents.length = 20 →
        slowDownIntervention ∉ checkBrowsingPatterns s now)
    ∧ (∀ old : List ClickSample, (∀ c ∈ old, 60000 ≤ now - c.timestamp) →
        recentClickCount (old ++ s.clickEvents) now = recentClickCount s.clickEvents now) := by
  refine ⟨slowDown_mem_iff s now, ?_, ?_, ?_⟩
  · intro hall hlen
    rw [slowDown_mem_iff]
    have : recentClickCount s.clickEvents now = s.clickEvents.length := by
      unfold recentClickCount
      rw [List.countP_eq_length]
      intro c hc
      exact decide_eq_true (hall c hc)
    omega
  · intro hlen
    rw [slowDown_mem_iff]
    have : recentClickCount s.clickEvents now ≤ s.clickEvents.length := List.countP_le_length _
    omega
  · intro old hold
    unfold recentClickCount
    rw [List.countP_append]
    have : List.countP (fun c => decide (now - c.timestamp < 60000)) old = 0 := by
      rw [List.countP_eq_zero]
      intro c hc
      have := hold c hc
      simp only [decide_eq_true_eq]
      omega
    omega

/-- Instance of C10: 21 clicks that are 59999 ms old fire the slow-down
intervention; the same 21 clicks one millisecond later do not. -/
theorem checkBrowsingPatterns_rapid_clicks_witness :
    slowDownIntervention ∈
      checkBrowsingPatterns { startTime := 0, clickEvents := clicksAt 21 1000 } 60999 ∧
    slowDownIntervention ∉
      checkBrowsingPatterns { startTime := 0, clickEvents := clicksAt 21 1000 } 61000 :=
  ⟨(checkBrowsingPatterns_rapid_clicks
      { startTime := 0, clickEvents := clicksAt 21 1000 } 60999).2.1
      (by decide) (by decide),
   fun h => absurd
     ((checkBrowsingPatterns_rapid_clicks
        { startTime := 0, clickEvents := clicksAt 21 1000 } 61000).1.1 h)
     (by decide)⟩

/-! ## Claims on the passes of the decision engine -/

/-- C11 as stated fails: on a session with 101 scroll events and 21 recent
clicks, two seconds after its start, one call of checkBrowsingPatterns emits
two interventions. -/
theorem checkBrowsingPatterns_emits_two :
    ¬ ((checkBrowsingPatterns busySession 2000).length ≤ 1) := by
  rw [checkBrowsingPatterns_eq, busySession_scrolls, busySession_startTime, busySession_clicks]
  decide

/-- C11, amended: one call of checkSessionDuration, analyzeScrollPattern,
checkExposureIntervention or analyzeTextInput emits at most one intervention;
one call of checkBrowsingPatterns emits at most two, and exactly two when
both the scroll-volume signal and the rapid-clicking signal hold. -/
theorem pass_emission_bounds (s : SessionData) (now : ℤ) (exposures : List Exposure)
    (platform : String) (random : ℚ) (target : InputTarget) :
    (checkSessionDuration s now).length ≤ 1 ∧
    (analyzeScrollPattern s).length ≤ 1 ∧
    (checkExposureIntervention exposures now).length ≤ 1 ∧
    (analyzeTextInput s now platform random target).2.length ≤ 1 ∧
    (checkBrowsingPatterns s now).length ≤ 2 ∧
    ((checkBrowsingPatterns s now).length = 2 ↔
      (100 < s.scrollEvents.length ∧ now - s.startTime < 600000) ∧
        20 < recentClickCount s.clickEvents now) := by
  refine ⟨?_, ?_, ?_, ?_, ?_, ?_⟩
  · rw [checkSessionDuration_eq]
    split_ifs <;> simp
  · rw [analyzeScrollPattern_eq]
    split_ifs <;> simp
  · rw [checkExposureIntervention_eq]
    split_ifs <;> simp
  · cases h : eventText target with
    | none => rw [analyzeTextInput_of_none s now platform random target h]; simp
    | some text =>
      rw [analyzeTextInput_of_text s now platform random target text h]
      split_ifs <;> simp [suggestPositiveAlternative]
  · rw [checkBrowsingPatterns_eq]
    split_ifs <;> simp
  · rw [checkBrowsingPatterns_eq]
    by_cases h1 : 100 < s.scrollEvents.length ∧ now - s.startTime < 600000 <;>
      by_cases h2 : 20 < recentClickCount s.clickEvents now <;>
      simp [h1, h2]

/-- C12 as stated fails: on the same session both signals hold and the pass
does emit the awareness intervention. -/
theorem checkBrowsingPatterns_awareness_not_suppressed :
    20 < recentClickCount busySession.clickEvents 2000 ∧
    100 < busySession.scrollEvents.length ∧
    2000 - busySession.startTime < 600000 ∧
    awarenessIntervention ∈ checkBrowsingPatterns busySession 2000 := by
  have h1 : 20 < recentClickCount busySession.clickEvents 2000 := by
    rw [busySession_clicks]
    decide
  have h2 : 100 < busySession.scrollEvents.length := by
    rw [busySession_scrolls]
    decide
  have h3 : 2000 - busySession.startTime < 600000 := by
    rw [busySession_startTime]
    decide
  exact ⟨h1, h2, h3, (awareness_mem_iff busySession 2000).2 ⟨h2, h3⟩⟩

/-- C12, amended: when both the rapid-clicking signal and the
excessive-scroll-volume signal hold, checkBrowsingPatterns emits both
interventions, awareness first and slow-down second. -/
theorem checkBrowsingPatterns_both_signals (s : SessionData) (now : ℤ)
    (hclicks : 20 < recentClickCount s.clickEvents now)
    (hscrolls : 100 < s.scrollEvents.length ∧ now - s.startTime < 600000) :
    checkBrowsingPatterns s now = [awarenessIntervention, slowDownIntervention] := by
  rw [checkBrowsingPatterns_eq, if_pos hscrolls, if_pos hclicks]
  rfl

/-- Instance of the amended C12 on the session with 101 scroll events and 21
recent clicks. -/
theorem checkBrowsingPatterns_both_signals_witness :
    checkBrowsingPatterns busySession 2000 = [awarenessIntervention, slowDownIntervention] :=
  checkBrowsingPatterns_both_signals busySession 2000
    (by rw [busySession_clicks]; decide)
    ⟨by rw [busySession_scrolls]; decide, by rw [busySession_startTime]; decide⟩

/-- C13: analyzeTextInput emits a reframe intervention exactly when the text
of the event has at least 10 characters (UTF-16 units, as `length` counts
them) and the scorer labels it negative with confidence above 0.7; a text
labelled stressed, such as "I am so stressed about finals and deadline",
triggers no intervention at all. -/
theorem analyzeTextInput_reframe (s : SessionData) (now : ℤ) (platform : String) (random : ℚ)
    (target : InputTarget) :
    ("reframe" ∈ emittedTypes (analyzeTextInput s now platform random target).2 ↔
      ∃ text, eventText target = some text ∧ 10 ≤ jsLength text ∧
        (analyzeTextSentiment text).label = "negative" ∧
        7 / 10 < (analyzeTextSentiment text).confidence)
    ∧ (∀ text, eventText target = some text → (analyzeTextSentiment text).label = "stressed" →
        (analyzeTextInput s now platform random target).2 = [])
    ∧ (analyzeTextSentiment "I am so stressed about finals and deadline").label = "stressed"
    ∧ (analyzeTextInput s now platform random
        { value := some "I am so stressed about finals and deadline" }).2 = [] := by
  have hstressed : (analyzeTextSentiment "I am so stressed about finals and deadline").label =
      "stressed" := by decide
  have hno : ∀ (tg : InputTarget) (text : String), eventText tg = some text →
      (analyzeTextSentiment text).label = "stressed" →
      (analyzeTextInput s now platform random tg).2 = [] := by
    intro tg text htext hlabel
    rw [analyzeTextInput_of_text s now platform random tg text htext]
    have hneg : ¬ ((analyzeTextSentiment text).label = "negative" ∧
        7 / 10 < (analyzeTextSentiment text).confidence) := by
      rintro ⟨h, _⟩
      rw [hlabel] at h
      exact absurd h (by decide)
    rw [if_neg hneg]
    split_ifs <;> rfl
  refine ⟨?_, hno target, hstressed, hno _ _ rfl hstressed⟩
  cases h : eventText target with
  | none =>
    rw [analyzeTextInput_of_none s now platform random target h]
    refine iff_of_false (by show "reframe" ∉ emittedTypes []; decide) ?_
    rintro ⟨text, ht, _⟩
    exact absurd ht (by simp)
  | some text =>
    rw [analyzeTextInput_of_text s now platform random target text h]
    by_cases hlen : jsLength text < 10
    · rw [if_pos hlen]
      refine iff_of_false (by show "reframe" ∉ emittedTypes []; decide) ?_
      rintro ⟨t, ht, hlen2, _⟩
      rw [Option.some.inj ht] at hlen
      omega
    · rw [if_neg hlen]
      by_cases hneg : (analyzeTextSentiment text).label = "negative" ∧
          7 / 10 < (analyzeTextSentiment text).confidence
      · rw [if_pos hneg]
        refine iff_of_true ?_ ⟨text, rfl, by omega, hneg.1, hneg.2⟩
        show "reframe" ∈ emittedTypes (suggestPositiveAlternative text random)
        rw [emittedTypes_suggest]
        exact List.mem_singleton_self _
      · rw [if_neg hneg]
        refine iff_of_false (by show "reframe" ∉ emittedTypes []; decide) ?_
        rintro ⟨t, ht, _, hl, hc⟩
        rw [Option.some.inj ht] at hneg
        exact hneg ⟨hl, hc⟩

/-- Instance of C13: "I feel sad and depressed" has two negative keywords,
confidence 0.8, and triggers a reframe. -/
theorem analyzeTextInput_reframe_witness :
    "reframe" ∈ emittedTypes
      (analyzeTextInput { startTime := 0 } 5 "twitter" (1 / 2)
        { value := some "I feel sad and depressed" }).2 :=
  (analyzeTextInput_reframe { startTime := 0 } 5 "twitter" (1 / 2)
    { value := some "I feel sad and depressed" }).1.2
    ⟨"I feel sad and depressed", rfl, by decide, by decide, by
      have h : countScores emotionKeywords (splitNonWord (toLowerCase "I feel sad and depressed")) =
          ⟨0, 2, 0⟩ := by decide
      show 7 / 10 < (resolveLabel (countScores emotionKeywords
        (splitNonWord (toLowerCase "I feel sad and depressed")))).confidence
      rw [h]
      norm_num [resolveLabel]⟩

/-- C14: with elapsed = now - startTime in milliseconds, checkSessionDuration
emits a break intervention exactly when elapsed > 2 hours, a check-in
exactly when 1 hour < elapsed <= 2 hours, and nothing exactly when
elapsed <= 1 hour; exactly 1 hour gives nothing, exactly 2 hours gives the
check-in, and break and check-in are never emitted together. -/
theorem checkSessionDuration_tiers (s : SessionData) (now : ℤ) :
    ("break" ∈ emittedTypes (checkSessionDuration s now) ↔ 7200000 < now - s.startTime)
    ∧ ("check-in" ∈ emittedTypes (checkSessionDuration s now) ↔
        3600000 < now - s.startTime ∧ now - s.startTime ≤ 7200000)
    ∧ (checkSessionDuration s now = [] ↔ now - s.startTime ≤ 3600000)
    ∧ (now - s.startTime = 3600000 → checkSessionDuration s now = [])
    ∧ (now - s.startTime = 7200000 → checkSessionDuration s now = [checkInIntervention])
    ∧ ¬ ("break" ∈ emittedTypes (checkSessionDuration s now) ∧
          "check-in" ∈ emittedTypes (checkSessionDuration s now)) := by
  rw [checkSessionDuration_eq]
  by_cases h2 : 7200000 < now - s.startTime
  · rw [if_pos h2]
    refine ⟨iff_of_true (by decide) h2, iff_of_false (by decide) (by omega),
      iff_of_false (by decide) (by omega), by omega, by omega, ?_⟩
    rintro ⟨_, h⟩
    exact absurd h (by decide)
  · rw [if_neg h2]
    by_cases h1 : 3600000 < now - s.startTime
    · rw [if_pos h1]
      refine ⟨iff_of_false (by decide) h2, iff_of_true (by decide) ⟨h1, by omega⟩,
        iff_of_false (by decide) (by omega), by omega, fun _ => rfl, ?_⟩
      rintro ⟨h, _⟩
      exact absurd h (by decide)
    · rw [if_neg h1]
      refine ⟨iff_of_false (by decide) h2, iff_of_false (by decide) (by omega),
        iff_of_true rfl (by omega), fun _ => rfl, by omega, ?_⟩
      rintro ⟨h, _⟩
      exact absurd h (by decide)

/-- Instance of C14: a session started at 0 gets nothing at exactly one
hour and the check-in at exactly two hours. -/
theorem checkSessionDuration_tiers_witness :
    checkSessionDuration { startTime := 0 } 3600000 = [] ∧
    checkSessionDuration { startTime := 0 } 7200000 = [checkInIntervention] :=
  ⟨(checkSessionDuration_tiers { startTime := 0 } 3600000).2.2.2.1 (by decide),
   (checkSessionDuration_tiers { startTime := 0 } 7200000).2.2.2.2.1 (by decide)⟩

/-- C15: checkBrowsingPatterns emits the awareness intervention exactly when
more than 100 scroll events are recorded and now - startTime is below
600000 ms; exactly 100 scroll events, or exactly 600000 ms elapsed, do not
fire it. -/
theorem checkBrowsingPatterns_scroll_volume (s : SessionData) (now : ℤ) :
    (awarenessIntervention ∈ checkBrowsingPatterns s now ↔
      100 < s.scrollEvents.length ∧ now - s.startTime < 600000)
    ∧ (s.scrollEvents.length = 100 → awarenessIntervention ∉ checkBrowsingPatterns s now)
    ∧ (now - s.startTime = 600000 → awarenessIntervention ∉ checkBrowsingPatterns s now) := by
  refine ⟨awareness_mem_iff s now, ?_, ?_⟩
  · intro h
    rw [awareness_mem_iff]
    omega
  · intro h
    rw [awareness_mem_iff]
    omega

/-- Instance of C15: the session with 101 scroll events gets the awareness
intervention after 2 seconds and not after exactly 10 minutes. -/
theorem checkBrowsingPatterns_scroll_volume_witness :
    awarenessIntervention ∈ checkBrowsingPatterns busySession 2000 ∧
    awarenessIntervention ∉ checkBrowsingPatterns busySession 600000 :=
  ⟨(checkBrowsingPatterns_scroll_volume busySession 2000).1.2
      ⟨by rw [busySession_scrolls]; decide, by rw [busySession_startTime]; decide⟩,
   (checkBrowsingPatterns_scroll_volume busySession 600000).2.2
      (by rw [busySession_startTime]; decide)⟩

/-- C16: checkExposureIntervention emits a break intervention exactly when
more than 5 exposures have now - timestamp < 1800000 ms; exactly 5 recent
exposures emit nothing, and so does any number of exposures that are all 30
minutes old or older. -/
theorem checkExposureIntervention_rule (exposures : List Exposure) (now : ℤ) :
    ("break" ∈ emittedTypes (checkExposureIntervention exposures now) ↔
      5 < recentExposureCount exposures now)
    ∧ (5 < recentExposureCount exposures now →
        checkExposureIntervention exposures now = [exposureBreakIntervention])
    ∧ (recentExposureCount exposures now = 5 → checkExposureIntervention exposures now = [])
    ∧ ((∀ e ∈ exposures, 1800000 ≤ now - e.timestamp) →
        checkExposureIntervention exposures now = []) := by
  rw [checkExposureIntervention_eq]
  refine ⟨?_, ?_, ?_, ?_⟩
  · by_cases h : 5 < recentExposureCount exposures now
    · rw [if_pos h]
      exact iff_of_true (by decide) h
    · rw [if_neg h]
      exact iff_of_false (by decide) h
  · intro h
    rw [if_pos h]
  · intro h
    rw [if_neg (by omega)]
  · intro h
    have h0 : recentExposureCount exposures now = 0 := by
      unfold recentExposureCount
      rw [List.countP_eq_zero]
      intro e he
      have := h e he
      simp only [decide_eq_true_eq]
      omega
    rw [if_neg (by omega)]

/-- Instance of C16: six exposures one second old fire the break, five do
not, and six exposures exactly 30 minutes old do not either. -/
theorem checkExposureIntervention_rule_witness :
    checkExposureIntervention (exposuresAt 6 0) 1000 = [exposureBreakIntervention] ∧
    checkExposureIntervention (exposuresAt 5 0) 1000 = [] ∧
    checkExposureIntervention (exposuresAt 6 0) 1800000 = [] :=
  ⟨(checkExposureIntervention_rule (exposuresAt 6 0) 1000).2.1 (by decide),
   (checkExposureIntervention_rule (exposuresAt 5 0) 1000).2.2.1 (by decide),
   (checkExposureIntervention_rule (exposuresAt 6 0) 1800000).2.2.2 (by decide)⟩

/-! ## Claims on the text samples and the rolling buffers -/

/-- C17: when the text of the event is empty or shorter than 10 characters
(or absent), analyzeTextInput leaves the session, textInteractions included,
unchanged and emits nothing; when it has 10 characters or more,
textInteractions is the old list followed by exactly one sample whose length
is the text length and whose sentiment is analyzeTextSentiment(text), and the
other session fields are unchanged. -/
theorem analyzeTextInput_records (s : SessionData) (now : ℤ) (platform : String) (random : ℚ)
    (target : InputTarget) :
    (eventText target = none → analyzeTextInput s now platform random target = (s, []))
    ∧ (∀ text, eventText target = some text → jsLength text < 10 →
        analyzeTextInput s now platform random target = (s, []))
    ∧ (∀ text, eventText target = some text → 10 ≤ jsLength text →
        (analyzeTextInput s now platform random target).1.textInteractions =
          s.textInteractions ++ [⟨now, jsLength text, analyzeTextSentiment text, platform⟩] ∧
        (analyzeTextInput s now platform random target).1.textInteractions.length =
          s.textInteractions.length + 1 ∧
        (analyzeTextInput s now platform random target).1.scrollEvents = s.scrollEvents ∧
        (analyzeTextInput s now platform random target).1.clickEvents = s.clickEvents ∧
        (analyzeTextInput s now platform random target).1.startTime = s.startTime)
    ∧ jsLength "" = 0 := by
  refine ⟨analyzeTextInput_of_none s now platform random target, ?_, ?_, jsLength_empty⟩
  · intro text ht hlen
    rw [analyzeTextInput_of_text s now platform random target text ht, if_pos hlen]
  · intro text ht hlen
    rw [analyzeTextInput_of_text s now platform random target text ht, if_neg (by omega)]
    split_ifs <;> simp

/-- Instance of C17: the 9-character text "I am sad." is ignored and the
10-character text "I am sad.." is recorded as one sample of length 10. -/
theorem analyzeTextInput_records_witness :
    analyzeTextInput { startTime := 0 } 5 "reddit" 0 { value := some "I am sad." } =
      ({ startTime := 0 }, []) ∧
    (analyzeTextInput { startTime := 0 } 5 "reddit" 0
        { value := some "I am sad.." }).1.textInteractions =
      [⟨5, 10, analyzeTextSentiment "I am sad..", "reddit"⟩] :=
  ⟨(analyzeTextInput_records { startTime := 0 } 5 "reddit" 0 { value := some "I am sad." }).2.1
      "I am sad." rfl (by decide),
   ((analyzeTextInput_records { startTime := 0 } 5 "reddit" 0 { value := some "I am sad.." }).2.2.1
      "I am sad.." rfl (by decide)).1⟩

/-- C18 as stated fails: after 11 scroll events in a fresh session the scroll
buffer holds 11 samples. -/
theorem scrollEvents_exceed_ten :
    ¬ ((runScrolls { startTime := 0 } (steadyScrolls 11)).scrollEvents.length ≤ 10) := by
  rw [runScrolls_length]
  decide

/-- C18, amended: the scroll buffer is never trimmed. After any sequence of
scroll events it is the old buffer followed by one sample per event, in
arrival order, so its length grows by the number of events; only the window
read by analyzeScrollPattern is limited to the 10 most recent samples. -/
theorem scrollEvents_unbounded (s : SessionData) (events : List (ℤ × ℚ)) :
    (∃ added : List ScrollSample,
      (runScrolls s events).scrollEvents = s.scrollEvents ++ added ∧
      added.map (fun e => (e.timestamp, e.scrollY)) = events)
    ∧ (runScrolls s events).scrollEvents.length = s.scrollEvents.length + events.length
    ∧ analyzeScrollPattern (runScrolls s events) =
        analyzeScrollPattern
          { runScrolls s events with
            scrollEvents := lastN 10 (runScrolls s events).scrollEvents } := by
  refine ⟨runScrolls_scrollEvents events s, runScrolls_length events s, ?_⟩
  unfold analyzeScrollPattern
  dsimp only
  rw [← sliceLast_eq_lastN]
  have hidem : sliceLast 10 (sliceLast 10 (runScrolls s events).scrollEvents) =
      sliceLast 10 (runScrolls s events).scrollEvents := by
    unfold sliceLast
    rw [List.length_drop, List.drop_drop]
    congr 1
    omega
  rw [hidem]

/-- C19: SET_CURRENT_MOOD yields the last 50 elements of the old history
followed by the new sample: the length is min(old length + 1, 50), the new
sample is last, the result is the end of the extended history (order kept,
the oldest samples removed), and starting from a history of at most 50
samples, the initial state in particular, any number of SET_CURRENT_MOOD
actions keeps the history at 50 samples or fewer. -/
theorem setCurrentMood_rolling (state : EmotionState) (m isoNow : String) :
    (emotionReducer state (.setCurrentMood m) isoNow).moodHistory =
      lastN 50 (state.moodHistory ++ [MoodEntry.mk m isoNow])
    ∧ (emotionReducer state (.setCurrentMood m) isoNow).moodHistory.length =
        min (state.moodHistory.length + 1) 50
    ∧ (emotionReducer state (.setCurrentMood m) isoNow).moodHistory.getLast? = some (MoodEntry.mk m isoNow)
    ∧ (state.moodHistory ++ [MoodEntry.mk m isoNow] =
        (state.moodHistory ++ [MoodEntry.mk m isoNow]).take (state.moodHistory.length + 1 - 50) ++
          (emotionReducer state (.setCurrentMood m) isoNow).moodHistory)
    ∧ (∀ moods : List (String × String), state.moodHistory.length ≤ 50 →
        (setMoods state moods).moodHistory.length ≤ 50)
    ∧ (∀ moods : List (String × String), (setMoods initialState moods).moodHistory.length ≤ 50) := by
  rw [setCurrentMood_history]
  refine ⟨sliceLast_eq_lastN _ _, ?_, getLast?_sliceLast_concat 50 _ _ (by decide), ?_, ?_, ?_⟩
  · rw [length_sliceLast, List.length_append, List.length_singleton]
  · have h := sliceLast_suffix 50 (state.moodHistory ++ [MoodEntry.mk m isoNow])
    rw [List.length_append, List.length_singleton] at h
    exact h
  · intro moods h
    exact setMoods_bound moods state h
  · intro moods
    exact setMoods_bound moods initialState (by decide)

/-- Instance of C19: from a history of 50 neutral samples, one more mood
keeps the length at 50. -/
theorem setCurrentMood_rolling_witness :
    (setMoods { initialState with moodHistory := List.replicate 50 ⟨"neutral", ""⟩ }
      [("positive", "t")]).moodHistory.length ≤ 50 :=
  (setCurrentMood_rolling { initialState with moodHistory := List.replicate 50 ⟨"neutral", ""⟩ }
    "positive" "t").2.2.2.2.1 [("positive", "t")] (by decide)

/-- C20: trackNegativeContentExposure stores the last 100 elements of the old
list (empty when nothing is stored yet) followed by the new exposure: the
stored length is min(old length + 1, 100), the new exposure is last, the
stored list is the end of the extended list (the oldest entries removed),
and checkExposureIntervention runs on this stored list. -/
theorem trackNegativeContentExposure_rolling (stored : Option (List Exposure)) (now : ℤ)
    (platform url : String) (nowCheck : ℤ) :
    (trackNegativeContentExposure stored now platform url nowCheck).1 =
      lastN 100 (stored.getD [] ++ [Exposure.mk now platform url])
    ∧ (trackNegativeContentExposure stored now platform url nowCheck).1.length =
        min ((stored.getD []).length + 1) 100
    ∧ (trackNegativeContentExposure stored now platform url nowCheck).1.getLast? =
        some (Exposure.mk now platform url)
    ∧ (stored.getD [] ++ [Exposure.mk now platform url] =
        (stored.getD [] ++ [Exposure.mk now platform url]).take ((stored.getD []).length + 1 - 100) ++
          (trackNegativeContentExposure stored now platform url nowCheck).1)
    ∧ (trackNegativeContentExposure stored now platform url nowCheck).2 =
        checkExposureIntervention
          (trackNegativeContentExposure stored now platform url nowCheck).1 nowCheck := by
  refine ⟨?_, ?_, ?_, ?_, rfl⟩
  all_goals rw [trackNegativeContentExposure_stored]
  · exact sliceLast_eq_lastN _ _
  · rw [length_sliceLast, List.length_append, List.length_singleton]
  · exact getLast?_sliceLast_concat 100 _ _ (by decide)
  · have h := sliceLast_suffix 100 (stored.getD [] ++ [Exposure.mk now platform url])
    rw [List.length_append, List.length_singleton] at h
    exact h

/-! ## Claims on re-triggering and on the scorer's keyword counts -/

/-- C21 as stated fails: on the session with 21 recent clicks,
checkBrowsingPatterns emits a slow-down intervention, and run again at once
on the same session it emits a slow-down intervention again. -/
theorem retrigger_not_suppressed :
    "slow-down" ∈ emittedTypes (evaluateTwice checkBrowsingPatterns busySession 2000).1 ∧
    "slow-down" ∈ emittedTypes (evaluateTwice checkBrowsingPatterns busySession 2000).2 := by
  have h : checkBrowsingPatterns busySession 2000 =
      [awarenessIntervention, slowDownIntervention] := by
    rw [checkBrowsingPatterns_eq, busySession_scrolls, busySession_startTime, busySession_clicks]
    decide
  unfold evaluateTwice
  dsimp only
  rw [h]
  decide

/-- C21, amended: the passes keep no cooldown state. A pass run again on the
same session at the same time emits the same interventions as the first
run; checkSessionDuration emits the break at every evaluation once more than
2 hours have elapsed; and analyzeTextInput run again on the same text emits
interventions of the same types, although the first run recorded a sample. -/
theorem passes_keep_no_cooldown (s : SessionData) (now later : ℤ) (platform : String)
    (random random2 : ℚ) (target : InputTarget) :
    (evaluateTwice checkBrowsingPatterns s now).2 =
      (evaluateTwice checkBrowsingPatterns s now).1
    ∧ (evaluateTwice checkSessionDuration s now).2 =
        (evaluateTwice checkSessionDuration s now).1
    ∧ (evaluateTwice (fun st _ => analyzeScrollPattern st) s now).2 =
        (evaluateTwice (fun st _ => analyzeScrollPattern st) s now).1
    ∧ (7200000 < now - s.startTime → now ≤ later →
        checkSessionDuration s now = [longBreakIntervention] ∧
        checkSessionDuration s later = [longBreakIntervention])
    ∧ emittedTypes
        (analyzeTextInput (analyzeTextInput s now platform random target).1 later platform
          random2 target).2 =
      emittedTypes (analyzeTextInput s now platform random target).2 := by
  refine ⟨rfl, rfl, rfl, ?_, ?_⟩
  · intro h1 h2
    rw [checkSessionDuration_eq, checkSessionDuration_eq, if_pos h1, if_pos (by omega)]
    exact ⟨rfl, rfl⟩
  · cases h : eventText target with
    | none =>
      rw [analyzeTextInput_of_none s now platform random target h,
        analyzeTextInput_of_none s later platform random2 target h]
    | some text =>
      rw [analyzeTextInput_of_text s now platform random target text h,
        analyzeTextInput_of_text _ later platform random2 target text h]
      split_ifs <;> rfl

/-- Instance of the amended C21: a session started at 0 gets the break at
2 h 05 min and again at the next tick, 2 h 10 min. -/
theorem passes_keep_no_cooldown_witness :
    checkSessionDuration { startTime := 0 } 7500000 = [longBreakIntervention] ∧
    checkSessionDuration { startTime := 0 } 7800000 = [longBreakIntervention] :=
  (passes_keep_no_cooldown { startTime := 0 } 7500000 7800000 "" 0 0 {}).2.2.2.1
    (by decide) (by decide)

/-- C22 as stated fails: the text "I am so stressed about finals and deadline"
does not have 3 stress keywords for the content-script scorer. -/
theorem stress_example_not_three :
    ¬ (keywordCount emotionKeywords.stress "I am so stressed about finals and deadline" = 3) := by
  decide

/-- C22, amended: the scorer labels "I am so stressed about finals and
deadline" stressed with confidence at least 0.8, by counting 2 stress
keywords (finals, deadline); the word stressed is in the negative list, not
in the stress list, and counts as the one negative keyword. -/
theorem stress_example_scored :
    (analyzeTextSentiment "I am so stressed about finals and deadline").label = "stressed"
    ∧ 8 / 10 ≤ (analyzeTextSentiment "I am so stressed about finals and deadline").confidence
    ∧ keywordCount emotionKeywords.stress "I am so stressed about finals and deadline" = 2
    ∧ keywordCount emotionKeywords.negative "I am so stressed about finals and deadline" = 1
    ∧ keywordCount emotionKeywords.positive "I am so stressed about finals and deadline" = 0
    ∧ "finals" ∈ emotionKeywords.stress ∧ "deadline" ∈ emotionKeywords.stress
    ∧ "stressed" ∉ emotionKeywords.stress ∧ "stressed" ∈ emotionKeywords.negative := by
  have hp : keywordCount emotionKeywords.positive
      "I am so stressed about finals and deadline" = 0 := by decide
  have hn : keywordCount emotionKeywords.negative
      "I am so stressed about finals and deadline" = 1 := by decide
  have hs : keywordCount emotionKeywords.stress
      "I am so stressed about finals and deadline" = 2 := by decide
  refine ⟨by decide, ?_, hs, hn, hp, by decide, by decide, by decide, by decide⟩
  rw [analyzeTextSentiment_eq, hp, hn, hs]
  norm_num [resolveLabel]

/-- C23: the empty string, every whitespace-only string (more generally every
string of non-word characters) and every text none of whose tokens is a
keyword get the default result, neutral with confidence 0.5; the scorer is a
total function. -/
theorem analyzeTextSentiment_default :
    analyzeTextSentiment "" = ⟨"neutral", 1 / 2⟩
    ∧ (∀ text : String, (∀ c ∈ text.toList, c.isWhitespace = true) →
        analyzeTextSentiment text = ⟨"neutral", 1 / 2⟩)
    ∧ (∀ text : String, (∀ c ∈ toLowerCase text, isWordChar c = false) →
        analyzeTextSentiment text = ⟨"neutral", 1 / 2⟩)
    ∧ (∀ text : String,
        (∀ w ∈ tokens text, w ∉ emotionKeywords.positive ∧ w ∉ emotionKeywords.negative ∧
          w ∉ emotionKeywords.stress) →
        analyzeTextSentiment text = ⟨"neutral", 1 / 2⟩) := by
  refine ⟨?_, ?_, analyzeTextSentiment_nonword, analyzeTextSentiment_no_keyword⟩
  · exact analyzeTextSentiment_nonword "" (by decide)
  · intro text h
    exact analyzeTextSentiment_nonword text (toLowerCase_whitespace text h)

/-- Instance of C23: a string of blanks, a tab and a newline, and a text
without keywords. -/
theorem analyzeTextSentiment_default_witness :
    analyzeTextSentiment "  \t\n" = ⟨"neutral", 1 / 2⟩ ∧
    analyzeTextSentiment "see you at noon" = ⟨"neutral", 1 / 2⟩ :=
  ⟨analyzeTextSentiment_default.2.1 "  \t\n" (by decide),
   analyzeTextSentiment_default.2.2.2 "see you at noon" (by decide)⟩

/-- C24: on a session whose scroll and click buffers are empty, and on an
empty exposure list, analyzeScrollPattern, checkBrowsingPatterns and
checkExposureIntervention emit nothing, at every time now; the three are
total functions. -/
theorem empty_buffers_emit_nothing (s : SessionData) (now : ℤ)
    (hscroll : s.scrollEvents = []) (hclick : s.clickEvents = []) :
    analyzeScrollPattern s = [] ∧ checkBrowsingPatterns s now = [] ∧
      checkExposureIntervention [] now = [] := by
  refine ⟨?_, ?_, ?_⟩
  · rw [analyzeScrollPattern_eq, hscroll]
    exact if_neg (by decide)
  · rw [checkBrowsingPatterns_eq, hscroll, hclick]
    have h1 : ¬ (100 < ([] : List ScrollSample).length ∧ now - s.startTime < 600000) :=
      fun h => absurd h.1 (by decide)
    have h2 : ¬ (20 < recentClickCount [] now) := by
      unfold recentClickCount
      rw [List.countP_nil]
      decide
    rw [if_neg h1, if_neg h2]
    rfl
  · rw [checkExposureIntervention_eq]
    have h : ¬ (5 < recentExposureCount [] now) := by
      unfold recentExposureCount
      rw [List.countP_nil]
      decide
    rw [if_neg h]

/-- Instance of C24: a fresh session three hours after its start. -/
theorem empty_buffers_emit_nothing_witness :
    analyzeScrollPattern { startTime := 0 } = [] ∧
      checkBrowsingPatterns { startTime := 0 } 10800000 = [] ∧
      checkExposureIntervention [] 10800000 = [] :=
  empty_buffers_emit_nothing { startTime := 0 } 10800000 rfl rfl

/-- C25: for two texts with the same label, if the second has at least as
many keywords of that label as the first, its confidence is at least that of
the first; the confidence never exceeds 0.95, is at least 0.7 for stressed,
at least 0.6 for negative and for positive, and exactly 0.5 for neutral. -/
theorem confidence_monotone (first second : String) :
    ((analyzeTextSentiment first).label = (analyzeTextSentiment second).label →
      dominantCount first ≤ dominantCount second →
      (analyzeTextSentiment first).confidence ≤ (analyzeTextSentiment second).confidence)
    ∧ (analyzeTextSentiment first).confidence ≤ 95 / 100
    ∧ ((analyzeTextSentiment first).label = "stressed" →
        7 / 10 ≤ (analyzeTextSentiment first).confidence)
    ∧ ((analyzeTextSentiment first).label = "negative" →
        6 / 10 ≤ (analyzeTextSentiment first).confidence)
    ∧ ((analyzeTextSentiment first).label = "positive" →
        6 / 10 ≤ (analyzeTextSentiment first).confidence)
    ∧ ((analyzeTextSentiment first).label = "neutral" →
        (analyzeTextSentiment first).confidence = 1 / 2) := by
  refine ⟨?_, ?_, ?_⟩
  · intro hlabel hcount
    have d1 := dominantCount_eq first
    have d2 := dominantCount_eq second
    rw [analyzeTextSentiment_eq first, analyzeTextSentiment_eq second] at hlabel ⊢
    rw [analyzeTextSentiment_eq first] at d1
    rw [analyzeTextSentiment_eq second] at d2
    apply resolveLabel_confidence_mono _ _ hlabel
    · intro h
      have h2 := h
      rw [hlabel] at h2
      show keywordCount emotionKeywords.stress first ≤ keywordCount emotionKeywords.stress second
      rw [← d1.1 h, ← d2.1 h2]
      exact hcount
    · intro h
      have h2 := h
      rw [hlabel] at h2
      show keywordCount emotionKeywords.negative first ≤
        keywordCount emotionKeywords.negative second
      rw [← d1.2.1 h, ← d2.2.1 h2]
      exact hcount
    · intro h
      have h2 := h
      rw [hlabel] at h2
      show keywordCount emotionKeywords.positive first ≤
        keywordCount emotionKeywords.positive second
      rw [← d1.2.2 h, ← d2.2.2 h2]
      exact hcount
  · rw [analyzeTextSentiment_eq]
    exact (resolveLabel_confidence_bounds _).2
  · rw [analyzeTextSentiment_eq]
    exact resolveLabel_floor _

/-- Instance of C25: "sad" and "sad and depressed" are both negative, with
one and two negative keywords, so the confidence does not decrease. -/
theorem confidence_monotone_witness :
    (analyzeTextSentiment "sad").confidence ≤
      (analyzeTextSentiment "sad and depressed").confidence :=
  (confidence_monotone "sad" "sad and depressed").1 (by decide) (by decide)

/-- C26: the positive, negative and stress lists of the content script are
pairwise disjoint, so a token adds to at most one counter and the three
counters of a text sum to at most its number of tokens. -/
theorem keyword_sets_disjoint (text : String) :
    (∀ w : String,
      ¬ (w ∈ emotionKeywords.positive ∧ w ∈ emotionKeywords.negative) ∧
      ¬ (w ∈ emotionKeywords.positive ∧ w ∈ emotionKeywords.stress) ∧
      ¬ (w ∈ emotionKeywords.negative ∧ w ∈ emotionKeywords.stress))
    ∧ (∀ (acc : Scores) (w : String),
        (scoreWord emotionKeywords acc w).positiveScore +
          (scoreWord emotionKeywords acc w).negativeScore +
          (scoreWord emotionKeywords acc w).stressScore ≤
        acc.positiveScore + acc.negativeScore + acc.stressScore + 1)
    ∧ (countScores emotionKeywords (tokens text)).positiveScore +
        (countScores emotionKeywords (tokens text)).negativeScore +
        (countScores emotionKeywords (tokens text)).stressScore ≤ (tokens text).length := by
  refine ⟨emotionKeywords_disjoint, ?_, ?_⟩
  · intro acc w
    obtain ⟨d1, d2, d3⟩ := emotionKeywords_disjoint w
    unfold scoreWord
    by_cases hp : w ∈ emotionKeywords.positive <;> by_cases hn : w ∈ emotionKeywords.negative <;>
      by_cases hs : w ∈ emotionKeywords.stress <;>
      simp only [hp, hn, hs, if_true, if_false, and_self, not_true_eq_false] at d1 d2 d3 ⊢ <;>
      omega
  · rw [countScores_eq]
    exact memCount_sum_le (tokens text)

/-! ## Claims on derived bounds and on the two scorers -/

/-- C27: a text labelled negative has confidence at least 0.7, equal to 0.7
exactly when it has one negative keyword; so the reframe rule of
analyzeTextInput (negative and confidence > 0.7) fires exactly for a text
labelled negative with at least 2 negative keywords, and the feed-exposure
rule of analyzeNewContent (negative and confidence > 0.6) fires exactly for a
text labelled negative. -/
theorem negative_confidence_rules (text : String) :
    ((analyzeTextSentiment text).label = "negative" →
      7 / 10 ≤ (analyzeTextSentiment text).confidence ∧
      ((analyzeTextSentiment text).confidence = 7 / 10 ↔
        keywordCount emotionKeywords.negative text = 1))
    ∧ (((analyzeTextSentiment text).label = "negative" ∧
          7 / 10 < (analyzeTextSentiment text).confidence) ↔
        ((analyzeTextSentiment text).label = "negative" ∧
          2 ≤ keywordCount emotionKeywords.negative text))
    ∧ (∀ (s : SessionData) (now : ℤ) (platform : String) (random : ℚ) (target : InputTarget),
        eventText target = some text → 10 ≤ jsLength text →
        ("reframe" ∈ emittedTypes (analyzeTextInput s now platform random target).2 ↔
          ((analyzeTextSentiment text).label = "negative" ∧
            2 ≤ keywordCount emotionKeywords.negative text)))
    ∧ (((analyzeTextSentiment text).label = "negative" ∧
          6 / 10 < (analyzeTextSentiment text).confidence) ↔
        (analyzeTextSentiment text).label = "negative")
    ∧ (∀ textContent : Option String,
        (analyzeNewContent textContent).exposure = true ↔
          (analyzeTextSentiment (feedText textContent)).label = "negative") := by
  have key : ∀ t : String, (analyzeTextSentiment t).label = "negative" →
      7 / 10 ≤ (analyzeTextSentiment t).confidence ∧
      ((analyzeTextSentiment t).confidence = 7 / 10 ↔
        keywordCount emotionKeywords.negative t = 1) ∧
      (7 / 10 < (analyzeTextSentiment t).confidence ↔
        2 ≤ keywordCount emotionKeywords.negative t) ∧
      6 / 10 < (analyzeTextSentiment t).confidence := by
    intro t h
    rw [analyzeTextSentiment_eq] at h ⊢
    exact negative_confidence_facts _ h
  have hreframe : ((analyzeTextSentiment text).label = "negative" ∧
        7 / 10 < (analyzeTextSentiment text).confidence) ↔
      ((analyzeTextSentiment text).label = "negative" ∧
        2 ≤ keywordCount emotionKeywords.negative text) :=
    ⟨fun h => ⟨h.1, (key text h.1).2.2.1.1 h.2⟩, fun h => ⟨h.1, (key text h.1).2.2.1.2 h.2⟩⟩
  refine ⟨fun h => ⟨(key text h).1, (key text h).2.1⟩, hreframe, ?_, ?_, ?_⟩
  · intro s now platform random target ht hlen
    rw [reframe_mem_iff s now platform random target text ht hlen]
    exact hreframe
  · exact ⟨fun h => h.1, fun h => ⟨h, (key text h).2.2.2⟩⟩
  · intro textContent
    rw [analyzeNewContent_exposure]
    exact ⟨fun h => h.1, fun h => ⟨h, (key _ h).2.2.2⟩⟩

/-- Instance of C27: "I feel sad" is negative with one negative keyword and
confidence exactly 0.7. -/
theorem negative_confidence_rules_witness :
    7 / 10 ≤ (analyzeTextSentiment "I feel sad").confidence ∧
    (analyzeTextSentiment "I feel sad").confidence = 7 / 10 :=
  ⟨((negative_confidence_rules "I feel sad").1 (by decide)).1,
   ((negative_confidence_rules "I feel sad").1 (by decide)).2.2 (by decide)⟩

/-- C28: on a history of at least 7 samples the confidence of predictMoodTrend
lies between 0.2 and 0.95 (the population variance of the mapped scores is
at most 4), and it is 0.95 when the last 7 samples all carry the same label;
hence, for every history, the confidence is 0 exactly when the trend is
insufficient_data. -/
theorem predictMoodTrend_confidence_range (history : List MoodEntry) :
    (7 ≤ history.length →
      2 / 10 ≤ (predictMoodTrend history).confidence ∧
      (predictMoodTrend history).confidence ≤ 95 / 100 ∧
      populationVariance ((lastSeven history).map moodScore) ≤ 4)
    ∧ (7 ≤ history.length → (∃ m : String, ∀ e ∈ lastSeven history, e.mood = m) →
        (predictMoodTrend history).confidence = 95 / 100)
    ∧ ((predictMoodTrend history).confidence = 0 ↔
        (predictMoodTrend history).trend = "insufficient_data") := by
  have hscores : ∀ x ∈ (lastSeven history).map moodScore, x ^ 2 ≤ 4 := by
    intro x hx
    rw [List.mem_map] at hx
    obtain ⟨e, _, rfl⟩ := hx
    exact moodScore_sq_le e
  have hrange : 7 ≤ history.length →
      2 / 10 ≤ (predictMoodTrend history).confidence ∧
      (predictMoodTrend history).confidence ≤ 95 / 100 ∧
      populationVariance ((lastSeven history).map moodScore) ≤ 4 := by
    intro hlen
    have hl : ((lastSeven history).map moodScore).length = 7 := by
      rw [List.length_map]
      exact length_lastSeven history hlen
    obtain ⟨hv0, hv4⟩ := populationVariance_bounds _ hl hscores
    rw [predictMoodTrend_of_length history hlen]
    dsimp only
    rw [varianceOf_eq _ hl]
    exact ⟨confidenceOf_lower _ _ hv0 hv4, confidenceOf_upper _ _, hv4⟩
  refine ⟨hrange, ?_, ?_⟩
  · rintro hlen ⟨m, hm⟩
    have hl : ((lastSeven history).map moodScore).length = 7 := by
      rw [List.length_map]
      exact length_lastSeven history hlen
    have hconst : ∀ x ∈ (lastSeven history).map moodScore, x = moodScore ⟨m, ""⟩ := by
      intro x hx
      rw [List.mem_map] at hx
      obtain ⟨e, he, rfl⟩ := hx
      exact moodScore_congr e m (hm e he)
    rw [predictMoodTrend_of_length history hlen]
    dsimp only
    rw [varianceOf_eq _ hl, populationVariance_const _ _ hl hconst]
    unfold confidenceOf
    have habs : (0 : ℚ) ≤ |averageScoreOf ((lastSeven history).map moodScore)| := abs_nonneg _
    rw [min_eq_right]
    norm_num
    linarith
  · by_cases hlen : 7 ≤ history.length
    · have h1 := (hrange hlen).1
      have h2 : (predictMoodTrend history).trend ≠ "insufficient_data" := by
        rw [predictMoodTrend_of_length history hlen]
        have hmem := trendOf_mem (averageScoreOf ((lastSeven history).map moodScore))
        intro heq
        dsimp only at heq
        rw [heq] at hmem
        revert hmem
        decide
      exact iff_of_false (by intro h0; rw [h0] at h1; norm_num at h1) h2
    · have hlt : history.length < 7 := by omega
      unfold predictMoodTrend
      rw [if_pos hlt]
      exact iff_of_true rfl rfl

/-- Instance of C28: seven negative samples give confidence 0.95. -/
theorem predictMoodTrend_confidence_range_witness :
    (predictMoodTrend (List.replicate 7 ⟨"negative", ""⟩)).confidence = 95 / 100 :=
  (predictMoodTrend_confidence_range (List.replicate 7 ⟨"negative", ""⟩)).2.1 (by decide)
    ⟨"negative", by decide⟩

/-- C29: on a buffer of exactly 5 or 6 samples with non-negative speeds, more
than 3 samples of speed above 5 already force the mean speed above 3, so the
breathing intervention is emitted; on the buffer of 7 samples with four
speeds of 5.1 and three of 0, more than 3 samples are above 5 and nothing is
emitted. -/
theorem mean_condition_redundant :
    (∀ s : SessionData, s.scrollEvents.length = 5 ∨ s.scrollEvents.length = 6 →
      (∀ e ∈ s.scrollEvents, 0 ≤ e.scrollSpeed) → 3 < rapidCount s.scrollEvents →
      3 < meanSpeed s.scrollEvents ∧ analyzeScrollPattern s = [breathingIntervention])
    ∧ (7 ≤ sparseRapidBuffer.length ∧ 3 < rapidCount (scrollWindow sparseRapidBuffer) ∧
        analyzeScrollPattern { startTime := 0, scrollEvents := sparseRapidBuffer } = []) := by
  constructor
  · intro s hlen hnonneg hrapid
    have hwin : scrollWindow s.scrollEvents = s.scrollEvents :=
      scrollWindow_of_le _ (by omega)
    obtain ⟨hsum, _⟩ := speed_sum_lower s.scrollEvents hnonneg
    have hr4 : (4 : ℚ) ≤ (rapidCount s.scrollEvents : ℚ) := by exact_mod_cast hrapid
    have hmean : 3 < meanSpeed s.scrollEvents := by
      unfold meanSpeed mean
      rw [List.length_map]
      rcases hlen with h | h <;> rw [h] <;> push_cast <;>
        rw [lt_div_iff₀ (by norm_num)] <;> linarith
    refine ⟨hmean, ?_⟩
    rw [analyzeScrollPattern_eq, hwin, if_pos ⟨by omega, hrapid, hmean⟩]
  · have hwin : scrollWindow sparseRapidBuffer = sparseRapidBuffer :=
      scrollWindow_of_le _ (by decide)
    have hrapid : rapidCount sparseRapidBuffer = 4 := by
      norm_num [rapidCount, sparseRapidBuffer, List.replicate, List.countP_cons]
    have hmean : ¬ (3 < meanSpeed sparseRapidBuffer) := by
      norm_num [meanSpeed, mean, sparseRapidBuffer, List.replicate]
    refine ⟨by decide, by rw [hwin, hrapid]; decide, ?_⟩
    rw [analyzeScrollPattern_eq]
    show (if 5 ≤ sparseRapidBuffer.length ∧ 3 < rapidCount (scrollWindow sparseRapidBuffer) ∧
      3 < meanSpeed (scrollWindow sparseRapidBuffer) then [breathingIntervention] else []) = []
    rw [hwin, if_neg (fun h => hmean h.2.2)]

/-- Instance of C29: five samples, four of speed 6 and one of speed 0. -/
theorem mean_condition_redundant_witness :
    analyzeScrollPattern
      { startTime := 0, scrollEvents := List.replicate 4 ⟨0, 0, 6⟩ ++ [⟨0, 0, 0⟩] } =
      [breathingIntervention] :=
  (mean_condition_redundant.1
    { startTime := 0, scrollEvents := List.replicate 4 ⟨0, 0, 6⟩ ++ [⟨0, 0, 0⟩] }
    (Or.inl (by decide))
    (by
      intro e he
      simp only [List.replicate, List.cons_append, List.nil_append, List.mem_cons,
        List.mem_singleton, List.mem_nil_iff, or_false] at he
      rcases he with h | h | h | h | h <;> rw [h] <;> norm_num)
    (by norm_num [rapidCount, List.replicate, List.countP_cons])).2

/-- C30: sentimentModel.predict of the dashboard and analyzeTextSentiment of
the content script apply the same decision to their keyword counts: for all
counts (p, n, s) the confidences are equal and the dashboard label is the
content-script label with a capital first letter (Stressed, Negative,
Positive, Neutral). -/
theorem scorers_same_decision (p n s : Nat) :
    (predictResolve ⟨p, n, s⟩).confidence = (resolveLabel ⟨p, n, s⟩).confidence
    ∧ (predictResolve ⟨p, n, s⟩).label = capitalise (resolveLabel ⟨p, n, s⟩).label
    ∧ String.mk (toLowerCase (predictResolve ⟨p, n, s⟩).label) = (resolveLabel ⟨p, n, s⟩).label
    ∧ (resolveLabel ⟨p, n, s⟩).label ∈ ["stressed", "negative", "positive", "neutral"]
    ∧ (∀ text : String,
        sentimentModelPredict text =
          predictResolve ⟨memCount dashboardKeywords.positive (splitSpace (toLowerCase text)),
            memCount dashboardKeywords.negative (splitSpace (toLowerCase text)),
            memCount dashboardKeywords.stress (splitSpace (toLowerCase text))⟩)
    ∧ (∀ text : String,
        analyzeTextSentiment text =
          resolveLabel ⟨memCount emotionKeywords.positive (splitNonWord (toLowerCase text)),
            memCount emotionKeywords.negative (splitNonWord (toLowerCase text)),
            memCount emotionKeywords.stress (splitNonWord (toLowerCase text))⟩) := by
  refine ⟨predictResolve_confidence _, ?_, ?_, ?_, ?_, ?_⟩
  · rcases predictResolve_cases ⟨p, n, s⟩ with ⟨h1, h2⟩ | ⟨h1, h2⟩ | ⟨h1, h2⟩ | ⟨h1, h2⟩ <;>
      rw [h1, h2] <;> decide
  · rcases predictResolve_cases ⟨p, n, s⟩ with ⟨h1, h2⟩ | ⟨h1, h2⟩ | ⟨h1, h2⟩ | ⟨h1, h2⟩ <;>
      rw [h1, h2] <;> decide
  · rcases predictResolve_cases ⟨p, n, s⟩ with ⟨h1, _⟩ | ⟨h1, _⟩ | ⟨h1, _⟩ | ⟨h1, _⟩ <;>
      rw [h1] <;> decide
  · intro text
    show predictResolve (countScores dashboardKeywords (splitSpace (toLowerCase text))) = _
    rw [countScores_eq]
  · intro text
    show resolveLabel (countScores emotionKeywords (splitNonWord (toLowerCase text))) = _
    rw [countScores_eq]

end MindfulCampus
